import Mathlib

/-!
Verification of `txt_export_tool`: export engine and message formatter.

A shallow embedding of `txt_export_tool.go`:

* `formatMessageToText` / `formatMiscMessage`: the message formatter (lines 160-242);
* `exportToTxt`: the export engine with its backward pagination loop (lines 93-158).

Go strings are Lean `String`s, `fmt.Sprintf` with `%s` / `%d` / `%v` verbs is string
concatenation (`%d` is `toString` on `Int`), Go `int` / `int64` values are `Int`, and the
one subtraction that can leave the `int64` range (`CreateTime - 1`) is wrapped explicitly.
Calls into package `wechat`, `os`, `time` and `path/filepath` are parameters of the
embedding (`WechatConsts`, `WechatDataProvider`, `System`).
-/

namespace TxtExport

/-! ## Data model (package `wechat`, as far as the tool reads it) -/

/-- The type `wechat.WeChatUserInfo`: the fields the tool reads. -/
structure WeChatUserInfo where
  UserName : String
  NickName : String
  ReMark : String
  IsGroup : Bool
  deriving DecidableEq, Repr, Inhabited

/-- The field `msg.LocationInfo`. -/
structure LocationInfo where
  Label : String
  PoiName : String
  deriving DecidableEq, Repr, Inhabited

/-- The field `msg.VisitInfo`. -/
structure VisitInfo where
  NickName : String
  deriving DecidableEq, Repr, Inhabited

/-- The field `msg.VoipInfo`. -/
structure VoipInfo where
  Msg : String
  deriving DecidableEq, Repr, Inhabited

/-- The field `msg.FileInfo`. -/
structure FileInfo where
  FileName : String
  deriving DecidableEq, Repr, Inhabited

/-- The field `msg.LinkInfo`. -/
structure LinkInfo where
  Title : String
  deriving DecidableEq, Repr, Inhabited

/-- The field `msg.PayInfo`. -/
structure PayInfo where
  Feedesc : String
  deriving DecidableEq, Repr, Inhabited

/-- The field `msg.MusicInfo`. -/
structure MusicInfo where
  Title : String
  Description : String
  deriving DecidableEq, Repr, Inhabited

/-- The field `msg.ChannelsInfo`. -/
structure ChannelsInfo where
  Description : String
  deriving DecidableEq, Repr, Inhabited

/-- The type `wechat.WeChatMessage`: the fields read by `formatMessageToText`,
`formatMiscMessage` and `exportToTxt`. `CreateTime` is an `int64`; `IsSender`, `Type` and
`SubType` are Go `int`s; the field `Type` is spelled `Type_` (a reserved word).
`Identity` is the message's identity in its conversation ("an opaque conversation-scoped
sequence position"): the tool never reads it, and it tells apart two messages of the same
second, sender and text. -/
structure WeChatMessage where
  Identity : Nat
  CreateTime : Int
  IsSender : Int
  Type_ : Int
  SubType : Int
  Content : String
  UserInfo : WeChatUserInfo
  ImagePath : String
  VoicePath : String
  VideoPath : String
  EmojiPath : String
  LocationInfo : LocationInfo
  VisitInfo : VisitInfo
  VoipInfo : VoipInfo
  FileInfo : FileInfo
  LinkInfo : LinkInfo
  PayInfo : PayInfo
  MusicInfo : MusicInfo
  ChannelsInfo : ChannelsInfo
  deriving DecidableEq, Repr, Inhabited

/-- The integer constants of package `wechat` named in the two `switch` statements. Their
values are declared in package `wechat`, whose source the tool does not hold, so they are a
parameter of the embedding. -/
structure WechatConsts where
  Wechat_Message_Type_Text : Int
  Wechat_Message_Type_Picture : Int
  Wechat_Message_Type_Voice : Int
  Wechat_Message_Type_Video : Int
  Wechat_Message_Type_Emoji : Int
  Wechat_Message_Type_Location : Int
  Wechat_Message_Type_Visit_Card : Int
  Wechat_Message_Type_Voip : Int
  Wechat_Message_Type_System : Int
  Wechat_Message_Type_Misc : Int
  Wechat_Misc_Message_File : Int
  Wechat_Misc_Message_CardLink : Int
  Wechat_Misc_Message_Applet : Int
  Wechat_Misc_Message_Transfer : Int
  Wechat_Misc_Message_Music : Int
  Wechat_Misc_Message_Channels : Int
  Wechat_Misc_Message_Live : Int
  Wechat_Misc_Message_Refer : Int
  deriving DecidableEq, Repr

/-- The ten message kinds the outer `switch` of `formatMessageToText` names, in the order
of its `case` arms. -/
def WechatConsts.knownTypes (K : WechatConsts) : List Int :=
  [K.Wechat_Message_Type_Text, K.Wechat_Message_Type_Picture, K.Wechat_Message_Type_Voice,
   K.Wechat_Message_Type_Video, K.Wechat_Message_Type_Emoji, K.Wechat_Message_Type_Location,
   K.Wechat_Message_Type_Visit_Card, K.Wechat_Message_Type_Voip,
   K.Wechat_Message_Type_System, K.Wechat_Message_Type_Misc]

/-- The eight sub-kinds the `switch` of `formatMiscMessage` names, in the order of its
`case` arms. -/
def WechatConsts.knownSubTypes (K : WechatConsts) : List Int :=
  [K.Wechat_Misc_Message_File, K.Wechat_Misc_Message_CardLink, K.Wechat_Misc_Message_Applet,
   K.Wechat_Misc_Message_Transfer, K.Wechat_Misc_Message_Music,
   K.Wechat_Misc_Message_Channels, K.Wechat_Misc_Message_Live, K.Wechat_Misc_Message_Refer]

/-- An assignment of pairwise distinct values to the constants, used to evaluate the
embedding on concrete messages. -/
def sampleConsts : WechatConsts where
  Wechat_Message_Type_Text := 1
  Wechat_Message_Type_Picture := 3
  Wechat_Message_Type_Voice := 34
  Wechat_Message_Type_Video := 43
  Wechat_Message_Type_Emoji := 47
  Wechat_Message_Type_Location := 48
  Wechat_Message_Type_Visit_Card := 42
  Wechat_Message_Type_Voip := 50
  Wechat_Message_Type_System := 10000
  Wechat_Message_Type_Misc := 49
  Wechat_Misc_Message_File := 6
  Wechat_Misc_Message_CardLink := 5
  Wechat_Misc_Message_Applet := 33
  Wechat_Misc_Message_Transfer := 2000
  Wechat_Misc_Message_Music := 3
  Wechat_Misc_Message_Channels := 51
  Wechat_Misc_Message_Live := 63
  Wechat_Misc_Message_Refer := 57

/-! ## Message formatter -/

/-- The function `formatMiscMessage` (lines 220-242): the nested dispatch on `msg.SubType`.
A Go `switch` takes the first arm whose constant equals the tag. -/
def formatMiscMessage (K : WechatConsts) (msg : WeChatMessage) : String :=
  if msg.SubType = K.Wechat_Misc_Message_File then
    "[文件] " ++ msg.FileInfo.FileName
  else if msg.SubType = K.Wechat_Misc_Message_CardLink then
    "[链接] " ++ msg.LinkInfo.Title
  else if msg.SubType = K.Wechat_Misc_Message_Applet then
    "[小程序] " ++ msg.LinkInfo.Title
  else if msg.SubType = K.Wechat_Misc_Message_Transfer then
    "[转账] " ++ msg.PayInfo.Feedesc
  else if msg.SubType = K.Wechat_Misc_Message_Music then
    "[音乐] " ++ msg.MusicInfo.Title ++ " - " ++ msg.MusicInfo.Description
  else if msg.SubType = K.Wechat_Misc_Message_Channels then
    "[视频号] " ++ msg.ChannelsInfo.Description
  else if msg.SubType = K.Wechat_Misc_Message_Live then
    "[直播] " ++ msg.ChannelsInfo.Description
  else if msg.SubType = K.Wechat_Misc_Message_Refer then
    "[引用消息] " ++ msg.Content
  else
    "[其他消息:" ++ toString msg.SubType ++ "] " ++ msg.Content

/-- The local `sender` of `formatMessageToText` (lines 163-174). -/
def messageSender (msg : WeChatMessage) : String :=
  if msg.IsSender = 1 then
    "我"
  else if msg.UserInfo.ReMark ≠ "" then
    msg.UserInfo.ReMark
  else if msg.UserInfo.NickName ≠ "" then
    msg.UserInfo.NickName
  else
    msg.UserInfo.UserName

/-- The local `content` of `formatMessageToText` (lines 176-215): the dispatch on
`msg.Type`. -/
def messageContent (K : WechatConsts) (msg : WeChatMessage) : String :=
  if msg.Type_ = K.Wechat_Message_Type_Text then
    msg.Content
  else if msg.Type_ = K.Wechat_Message_Type_Picture then
    "[图片]" ++ (if msg.ImagePath ≠ "" then " (路径: " ++ msg.ImagePath ++ ")" else "")
  else if msg.Type_ = K.Wechat_Message_Type_Voice then
    "[语音]" ++ (if msg.VoicePath ≠ "" then " (路径: " ++ msg.VoicePath ++ ")" else "")
  else if msg.Type_ = K.Wechat_Message_Type_Video then
    "[视频]" ++ (if msg.VideoPath ≠ "" then " (路径: " ++ msg.VideoPath ++ ")" else "")
  else if msg.Type_ = K.Wechat_Message_Type_Emoji then
    "[表情]" ++ (if msg.EmojiPath ≠ "" then " (路径: " ++ msg.EmojiPath ++ ")" else "")
  else if msg.Type_ = K.Wechat_Message_Type_Location then
    "[位置] " ++ msg.LocationInfo.Label ++
      (if msg.LocationInfo.PoiName ≠ "" then " (" ++ msg.LocationInfo.PoiName ++ ")" else "")
  else if msg.Type_ = K.Wechat_Message_Type_Visit_Card then
    "[名片] " ++ msg.VisitInfo.NickName
  else if msg.Type_ = K.Wechat_Message_Type_Voip then
    "[通话] " ++ msg.VoipInfo.Msg
  else if msg.Type_ = K.Wechat_Message_Type_System then
    "[系统消息] " ++ msg.Content
  else if msg.Type_ = K.Wechat_Message_Type_Misc then
    formatMiscMessage K msg
  else
    "[未知消息类型:" ++ toString msg.Type_ ++ "] " ++ msg.Content

/-- The final `fmt.Sprintf("[%s] %s: %s", msgTime, sender, content)` of
`formatMessageToText` (line 217). -/
def composeLine (msgTime sender content : String) : String :=
  "[" ++ msgTime ++ "] " ++ sender ++ ": " ++ content

/-- The layout string of the per-message timestamp and of the header's export time. -/
def layoutDateTime : String := "2006-01-02 15:04:05"

/-- The function `formatMessageToText` (lines 160-218). `timeFormat layout t` stands for
`time.Unix(t, 0).Format(layout)`, which depends on the local time zone of the process.
The parameter `selfUserName` is received and never read, as in the source. -/
def formatMessageToText (K : WechatConsts) (timeFormat : String → Int → String)
    (msg : WeChatMessage) (selfUserName : String) : String :=
  let _ := selfUserName
  let msgTime := timeFormat layoutDateTime msg.CreateTime
  composeLine msgTime (messageSender msg) (messageContent K msg)

/-! ## Export engine -/

/-- The type `wechat.WeChatMessageList`: `Total` is a Go `int` the provider fills in
independently of `Rows`. -/
structure WeChatMessageList where
  Total : Int
  Rows : List WeChatMessage
  deriving DecidableEq, Repr, Inhabited

/-- The search directions of package `wechat`; the tool names only this one. -/
inductive Message_Search_Direction where
  | Message_Search_Forward
  deriving DecidableEq, Repr, Inhabited

/-- What the Go pair `(value, err)` of a fallible call holds: the value, or the error as
`%v` prints it. -/
inductive Fallible (α : Type) where
  | ok (value : α)
  | err (e : String)
  deriving DecidableEq, Repr

/-- The type `wechat.WechatDataProvider`, as far as `exportToTxt` uses it. The two methods
are implemented in package `wechat` and are parameters here. `WeChatGetMessageListByTime n`
answers the `n`-th page query of a run (counted from 0), so a provider whose answers
change from call to call is covered. -/
structure WechatDataProvider where
  SelfInfo : WeChatUserInfo
  WechatGetUserInfoByNameOnCache : String → Fallible WeChatUserInfo
  WeChatGetMessageListByTime :
    Nat → String → Int → Int → Message_Search_Direction → Fallible WeChatMessageList

/-- The standard-library and operating-system behaviour the tool depends on.
* `now n`: the `n`-th reading of `time.Now()` in a run, in Unix seconds;
* `timeFormat layout t`: `time.Unix(t, 0).Format(layout)` in the local zone;
* `filepathJoin`: `filepath.Join`;
* `osCreate path`: the error of `os.Create(path)`, if any;
* `WriteString n s`: the error of the `n`-th `file.WriteString` call (from 0), if any. -/
structure System where
  now : Nat → Int
  timeFormat : String → Int → String
  filepathJoin : String → String → String
  osCreate : String → Option String
  WriteString : Nat → String → Option String

/-- The observable actions of one call of `exportToTxt`, in program order. A `query`
carries the cursor passed and the provider's answer; a `write` carries the error the
call returned (which the tool discards). -/
inductive Event where
  | lookup (userName : String)
  | create (path : String) (error : Option String)
  | write (s : String) (error : Option String)
  | query (userName : String) (time : Int) (pageSize : Int)
      (direction : Message_Search_Direction) (answer : Fallible WeChatMessageList)
  | stdout (s : String)
  | log (s : String)
  | close
  deriving DecidableEq, Repr

/-- How a call of `exportToTxt` ends: it returns its status string, or the index
expression `messageList.Rows[messageList.Total-1]` panics. -/
inductive Outcome where
  | returned (status : String)
  | panicked
  deriving DecidableEq, Repr

/-- One terminated call of `exportToTxt`. -/
structure Run where
  trace : List Event
  outcome : Outcome
  deriving DecidableEq, Repr

/-- How the `for` loop ends: by `break` with the counter `totalMessages`, or by the
index panic. -/
inductive LoopExit where
  | finished (totalMessages : Nat)
  | indexOutOfRange
  deriving DecidableEq, Repr

/-- Two's-complement wrap-around of `int64` arithmetic. -/
def wrapInt64 (x : Int) : Int := (x + 2 ^ 63) % 2 ^ 64 - 2 ^ 63

/-- The least `int64`. -/
def minInt64 : Int := -(2 ^ 63)

/-- The greatest `int64`. -/
def maxInt64 : Int := 2 ^ 63 - 1

/-- The Go index expression `rows[i]` for an `int` index; `none` is the run-time panic. -/
def indexRows (rows : List WeChatMessage) (i : Int) : Option WeChatMessage :=
  if 0 ≤ i then rows.get? i.toNat else none

/-- The literal `pageSize := 500` (line 125). -/
def pageSize : Int := 500

/-- The string `strings.Repeat("=", 50)`. -/
def rule50 : String := String.mk (List.replicate 50 '=')

/-- The body of `for _, msg := range messageList.Rows` (lines 142-146): one `WriteString`
per row; `n` is the number of `WriteString` calls made before. -/
def writeRows (K : WechatConsts) (S : System) (selfUserName : String) :
    Nat → List WeChatMessage → List Event
  | _, [] => []
  | n, msg :: rest =>
    let msgText := formatMessageToText K S.timeFormat msg selfUserName
    Event.write (msgText ++ "\n") (S.WriteString n (msgText ++ "\n")) ::
      writeRows K S selfUserName (n + 1) rest

/-- The call `provider.WeChatGetMessageListByTime(userName, currentTime, pageSize,
wechat.Message_Search_Forward)` of line 132, as the `queryNo`-th query of the run. -/
def askPage (provider : WechatDataProvider) (userName : String) (queryNo : Nat)
    (currentTime : Int) : Fallible WeChatMessageList :=
  provider.WeChatGetMessageListByTime queryNo userName currentTime pageSize
    Message_Search_Direction.Message_Search_Forward

/-- The event of that call. -/
def queryEvent (provider : WechatDataProvider) (userName : String) (queryNo : Nat)
    (currentTime : Int) : Event :=
  Event.query userName currentTime pageSize Message_Search_Direction.Message_Search_Forward
    (askPage provider userName queryNo currentTime)

/-- The actions of lines 142-148 on a page with `Total != 0`: the rows are written in the
order returned, then the progress line is printed. The header is `WriteString` call 0, so
`totalMessages + 1` calls were made before. -/
def pageEvents (K : WechatConsts) (S : System) (provider : WechatDataProvider)
    (totalMessages : Nat) (rows : List WeChatMessage) : List Event :=
  writeRows K S provider.SelfInfo.UserName (totalMessages + 1) rows ++
    [Event.stdout ("已处理 " ++ toString (totalMessages + rows.length) ++ " 条消息...\r")]

/-- The pagination loop `for { ... }` (lines 131-151), started with the query counter
`queryNo`, the cursor `currentTime` and the counter `totalMessages`. It yields the events
of the remaining iterations and the way the loop ends; `fuel` bounds the number of
iterations and `none` means the bound was not enough. The counter `totalMessages` is a Go
`int`; it counts rows held in memory and is left unbounded here. The cursor is an `int64`
and `CreateTime - 1` wraps around. -/
def exportLoop (K : WechatConsts) (S : System) (provider : WechatDataProvider)
    (userName : String) : Nat → Nat → Int → Nat → Option (List Event × LoopExit)
  | 0, _, _, _ => none
  | fuel + 1, queryNo, currentTime, totalMessages =>
    match askPage provider userName queryNo currentTime with
    | Fallible.err e =>
      some ([queryEvent provider userName queryNo currentTime,
          Event.log ("获取消息失败: " ++ e ++ "\n")],
        LoopExit.finished totalMessages)
    | Fallible.ok messageList =>
      if messageList.Total = 0 then
        some ([queryEvent provider userName queryNo currentTime],
          LoopExit.finished totalMessages)
      else
        let body := queryEvent provider userName queryNo currentTime ::
          pageEvents K S provider totalMessages messageList.Rows
        match indexRows messageList.Rows (messageList.Total - 1) with
        | none => some (body, LoopExit.indexOutOfRange)
        | some last =>
          match exportLoop K S provider userName fuel (queryNo + 1)
              (wrapInt64 (last.CreateTime - 1)) (totalMessages + messageList.Rows.length) with
          | none => none
          | some (rest, exit) => some (body ++ rest, exit)

/-- The transcript header (lines 109-121); `now1` is the second reading of the clock. -/
def exportHeader (S : System) (userInfo : WeChatUserInfo) : String :=
  "微信聊天记录导出\n" ++
  ("导出时间: " ++ S.timeFormat layoutDateTime (S.now 1) ++ "\n") ++
  ("聊天对象: " ++ userInfo.NickName) ++
  (if userInfo.ReMark ≠ "" then " (" ++ userInfo.ReMark ++ ")" else "") ++
  "\n" ++
  (if userInfo.IsGroup then "聊天类型: 群聊\n" else "聊天类型: 单聊\n") ++
  (rule50 ++ "\n\n")

/-- The transcript footer (lines 153-154). -/
def exportFooter (totalMessages : Nat) : String :=
  ("\n" ++ rule50 ++ "\n") ++ ("导出完成，共导出 " ++ toString totalMessages ++ " 条消息\n")

/-- The path of the output file (lines 99-101); the first reading of the clock names it. -/
def exportPath (S : System) (userName outputPath : String) : String :=
  let timestamp := S.timeFormat "20060102_150405" (S.now 0)
  let filename := "wechat_chat_" ++ userName ++ "_" ++ timestamp ++ ".txt"
  S.filepathJoin outputPath filename

/-- The status string of a completed export (line 157). -/
def exportSuccess (fullPath : String) (totalMessages : Nat) : String :=
  "\n✅ 导出成功！\n文件保存在: " ++ fullPath ++ "\n共导出 " ++ toString totalMessages ++
    " 条消息"

/-- The function `exportToTxt` (lines 93-158). The deferred `file.Close()` runs on every
path that created the file, the panic included. `none`: `fuel` iterations of the loop were
not enough. -/
def exportToTxt (K : WechatConsts) (S : System) (provider : WechatDataProvider)
    (userName outputPath : String) (fuel : Nat) : Option Run :=
  match provider.WechatGetUserInfoByNameOnCache userName with
  | Fallible.err e =>
    some ⟨[Event.lookup userName],
      Outcome.returned ("错误: 找不到用户 " ++ userName ++ ": " ++ e)⟩
  | Fallible.ok userInfo =>
    let fullPath := exportPath S userName outputPath
    match S.osCreate fullPath with
    | some e =>
      some ⟨[Event.lookup userName, Event.create fullPath (some e)],
        Outcome.returned ("错误: 创建文件失败: " ++ e)⟩
    | none =>
      let header := exportHeader S userInfo
      let start := [Event.lookup userName, Event.create fullPath none,
        Event.write header (S.WriteString 0 header),
        Event.stdout ("正在导出 " ++ userInfo.NickName ++ " 的聊天记录...\n")]
      match exportLoop K S provider userName fuel 0 (S.now 2) 0 with
      | none => none
      | some (events, LoopExit.indexOutOfRange) =>
        some ⟨start ++ events ++ [Event.close], Outcome.panicked⟩
      | some (events, LoopExit.finished totalMessages) =>
        let footer := exportFooter totalMessages
        some ⟨start ++ events ++
            [Event.write footer (S.WriteString (totalMessages + 1) footer), Event.close],
          Outcome.returned (exportSuccess fullPath totalMessages)⟩

/-! ## Reading a trace -/

/-- The page queries of a trace, in order: the cursor passed and the answer received. -/
def queryLog : List Event → List (Int × Fallible WeChatMessageList)
  | [] => []
  | Event.query _ time _ _ answer :: rest => (time, answer) :: queryLog rest
  | _ :: rest => queryLog rest

/-- The strings passed to `file.WriteString`, in order. -/
def writeLog : List Event → List String
  | [] => []
  | Event.write s _ :: rest => s :: writeLog rest
  | _ :: rest => writeLog rest

/-- Whether `os.Create` was called. -/
def createLog : List Event → List String
  | [] => []
  | Event.create path _ :: rest => path :: createLog rest
  | _ :: rest => createLog rest

/-- The number of rows in the pages of a query log (failed queries hold none). -/
def rowsReceived : List (Int × Fallible WeChatMessageList) → Nat
  | [] => 0
  | (_, Fallible.ok messageList) :: rest => messageList.Rows.length + rowsReceived rest
  | (_, Fallible.err _) :: rest => rowsReceived rest

/-! ## A message store behind the provider -/

/-- Newest first: the order in which the store hands out a page. -/
def newerOrEqual (a b : WeChatMessage) : Prop := b.CreateTime ≤ a.CreateTime

instance : DecidableRel newerOrEqual := fun a b =>
  inferInstanceAs (Decidable (b.CreateTime ≤ a.CreateTime))

/-- The messages of a conversation, newest first. -/
def newestFirst (conversation : List WeChatMessage) : List WeChatMessage :=
  conversation.insertionSort newerOrEqual

/-- Modelled from the spec: the page query `WeChatGetMessageListByTime` of the message
store (a method of package `wechat`, whose source is not part of the tool): "a page of up
to a fixed page size of messages older than the cursor", the cursor being an exclusive
upper bound, the newest such messages, newest first, with `Total` the number of rows. -/
def storeQuery (conversation : List WeChatMessage) (time pageSize : Int) :
    WeChatMessageList :=
  let rows := ((newestFirst conversation).filter
    (fun m => decide (m.CreateTime < time))).take pageSize.toNat
  { Total := rows.length, Rows := rows }

/-- Modelled from the spec: a provider over a store that holds one conversation, with the
user `info`; it never fails on a page query, and its user lookup fails for any other
name. -/
def storeProvider (self info : WeChatUserInfo) (conversation : List WeChatMessage) :
    WechatDataProvider where
  SelfInfo := self
  WechatGetUserInfoByNameOnCache := fun userName =>
    if userName = info.UserName then Fallible.ok info else Fallible.err "user not found"
  WeChatGetMessageListByTime := fun _ userName time pageSize _ =>
    Fallible.ok (storeQuery (if userName = info.UserName then conversation else [])
      time pageSize)

/-- A provider that answers the `n`-th page query with the `n`-th entry of a script,
whatever the cursor, and with an empty page once the script is used up. -/
def scriptedProvider (info : WeChatUserInfo) (script : List (Fallible WeChatMessageList)) :
    WechatDataProvider where
  SelfInfo := default
  WechatGetUserInfoByNameOnCache := fun _ => Fallible.ok info
  WeChatGetMessageListByTime := fun n _ _ _ _ =>
    (script.get? n).getD (Fallible.ok { Total := 0, Rows := [] })

/-- A system whose clock reads `t` each time, whose timestamps print the number of
seconds, and whose file operations succeed. -/
def sampleSystem (t : Int) : System where
  now := fun _ => t
  timeFormat := fun _ x => toString x
  filepathJoin := fun dir file => dir ++ "/" ++ file
  osCreate := fun _ => none
  WriteString := fun _ _ => none

/-- A text message at time `t` with content `c`, received from user `u`. -/
def textMessage (t : Int) (u c : String) : WeChatMessage :=
  { (default : WeChatMessage) with
    CreateTime := t, Type_ := sampleConsts.Wechat_Message_Type_Text, Content := c,
    UserInfo := { (default : WeChatUserInfo) with UserName := u } }

/-- A message received from a user with the given remark, nickname and user name. -/
def labelled (remark nick user : String) : WeChatMessage :=
  { textMessage 5 user "hi" with
    UserInfo := { UserName := user, NickName := nick, ReMark := remark, IsGroup := false } }

/-- A user record with the given user name and nickname. -/
def sampleUser (user nick : String) : WeChatUserInfo :=
  { UserName := user, NickName := nick, ReMark := "", IsGroup := false }

/-- The messages at times `n, n - 1, ..., 1`, one per second, newest first. -/
def everySecond : Nat → List WeChatMessage
  | 0 => []
  | n + 1 => textMessage (n + 1) "u" "x" :: everySecond n

/-- A system whose every `WriteString` fails with "disk full". -/
def diskFull : System :=
  { sampleSystem 1000 with WriteString := fun _ _ => some "disk full" }

/-- A system in which `os.Create` fails with "permission denied". -/
def readOnly : System :=
  { sampleSystem 1000 with osCreate := fun _ => some "permission denied" }

/-- How the loop passes from one query to the next (line 150): the page of the first is
not empty, its row `Rows[Total-1]` exists, and the cursor of the second is that row's
`CreateTime - 1` in `int64` arithmetic. -/
def CursorStep (a b : Int × Fallible WeChatMessageList) : Prop :=
  ∃ page last, a.2 = Fallible.ok page ∧ page.Total ≠ 0 ∧
    indexRows page.Rows (page.Total - 1) = some last ∧
    b.1 = wrapInt64 (last.CreateTime - 1)

/-- The run of a call that terminated within its loop bound. -/
def runOf (result : Option Run) : Run :=
  result.getD { trace := [], outcome := Outcome.panicked }

/-- The export in which the first query returns a page of 500 rows and the second query
fails. -/
def failedSecondFetch : Option Run :=
  exportToTxt sampleConsts (sampleSystem 1000)
    (scriptedProvider (sampleUser "u" "N")
      [Fallible.ok ⟨500, everySecond 500⟩, Fallible.err "database is locked"])
    "u" "out" 5

/-- The export of a conversation of three messages, one page of three rows. -/
def threeMessageExport : Option Run :=
  exportToTxt sampleConsts (sampleSystem 1000)
    (storeProvider default (sampleUser "u" "N") (everySecond 3)) "u" "out" 5

/-- The messages at times `2 n, 2 (n - 1), ..., 2`, two seconds apart, newest first. -/
def everyOtherSecond : Nat → List WeChatMessage
  | 0 => []
  | n + 1 => textMessage (2 * (n + 1)) "u" "x" :: everyOtherSecond n

/-- The rows of the pages of a query log, in the order received. -/
def allRows : List (Int × Fallible WeChatMessageList) → List WeChatMessage
  | [] => []
  | (_, Fallible.ok messageList) :: rest => messageList.Rows ++ allRows rest
  | (_, Fallible.err _) :: rest => allRows rest

/-- The rows the loop passes to the formatter: those of the pages with `Total != 0`
(lines 138-146), in the order received. -/
def rowsWritten : List (Int × Fallible WeChatMessageList) → List WeChatMessage
  | [] => []
  | (_, Fallible.ok messageList) :: rest =>
    (if messageList.Total = 0 then [] else messageList.Rows) ++ rowsWritten rest
  | (_, Fallible.err _) :: rest => rowsWritten rest

/-- The rendering of a media message: the tag alone for an empty path, the tag followed by
the parenthesized path otherwise, and the tag alone only for an empty path. -/
def MediaRendering (content tag path : String) : Prop :=
  (path = "" → content = tag) ∧
  (path ≠ "" → content = tag ++ (" (路径: " ++ path ++ ")")) ∧
  (content = tag ↔ path = "")

/-- A provider over a store that holds one conversation and hands out each page oldest
first: the page is the store's (up to the page size of the newest messages older than
the cursor), its rows are in the opposite order. -/
def oldestFirstProvider (info : WeChatUserInfo) (conversation : List WeChatMessage) :
    WechatDataProvider where
  SelfInfo := default
  WechatGetUserInfoByNameOnCache := fun _ => Fallible.ok info
  WeChatGetMessageListByTime := fun _ _ time pageSize _ =>
    Fallible.ok { Total := (storeQuery conversation time pageSize).Total,
                  Rows := (storeQuery conversation time pageSize).Rows.reverse }

/-- The export in which the first query returns one row with `Total` 2. -/
def overstatedTotalExport : Option Run :=
  exportToTxt sampleConsts (sampleSystem 1000)
    (scriptedProvider (sampleUser "u" "N") [Fallible.ok ⟨2, [textMessage 300 "u" "c"]⟩])
    "u" "out" 5

/-- The export of a group conversation whose user has the remark "R". -/
def groupExport : Option Run :=
  exportToTxt sampleConsts (sampleSystem 1000)
    (storeProvider default { UserName := "g", NickName := "N", ReMark := "R", IsGroup := true }
      (everySecond 3)) "g" "out" 5

/-- The export in which the only page has one row and `Total` 0. -/
def zeroTotalExport : Option Run :=
  exportToTxt sampleConsts (sampleSystem 1000)
    (scriptedProvider (sampleUser "u" "N") [Fallible.ok ⟨0, [textMessage 300 "u" "c"]⟩])
    "u" "out" 5

/-- The export of two messages (times 100 and 200) from a store that hands out its pages
oldest first. -/
def oldestFirstExport : Option Run :=
  exportToTxt sampleConsts (sampleSystem 1000)
    (oldestFirstProvider (sampleUser "u" "N")
      [textMessage 100 "u" "a", textMessage 200 "u" "b"]) "u" "out" 5

/-- The export in which a message at the least `int64` is returned by two queries. -/
def wrappedCursorExport : Option Run :=
  exportToTxt sampleConsts (sampleSystem 1000)
    (scriptedProvider (sampleUser "u" "N")
      [Fallible.ok ⟨1, [textMessage minInt64 "u" "x"]⟩,
       Fallible.ok ⟨1, [textMessage minInt64 "u" "x"]⟩]) "u" "out" 5

/-- The export in which one page holds the same message (identity 7) twice. -/
def repeatedRowExport : Option Run :=
  exportToTxt sampleConsts (sampleSystem 1000)
    (scriptedProvider (sampleUser "u" "N")
      [Fallible.ok ⟨2, [{ textMessage 300 "u" "c" with Identity := 7 },
        { textMessage 300 "u" "c" with Identity := 7 }]⟩]) "u" "out" 5

/-- The rows of a list of pages, in order. -/
def rowsOfPages : List WeChatMessageList → List WeChatMessage
  | [] => []
  | messageList :: rest => messageList.Rows ++ rowsOfPages rest

/-- The cursor the loop reaches when the provider answers the queries `queryNo`,
`queryNo + 1`, ... of a run, the first with the cursor `currentTime`, with the given
pages, one after the other: each page has `Total != 0` and a row `Rows[Total-1]`, from
which the next cursor is taken (lines 138-150). `none`: the provider does not answer so,
or the loop does not get past one of the pages. -/
def cursorAfter (provider : WechatDataProvider) (userName : String) :
    Nat → Int → List WeChatMessageList → Option Int
  | _, currentTime, [] => some currentTime
  | queryNo, currentTime, messageList :: rest =>
    if askPage provider userName queryNo currentTime = Fallible.ok messageList ∧
        messageList.Total ≠ 0 then
      match indexRows messageList.Rows (messageList.Total - 1) with
      | some last =>
        cursorAfter provider userName (queryNo + 1) (wrapInt64 (last.CreateTime - 1)) rest
      | none => none
    else none

/-- A conversation of 501 messages, all older than time 1000: one message in each of the
seconds 500, ..., 1, and a second message (another identity, same sender and text) in
second 1. -/
def boundaryTie : List WeChatMessage :=
  everySecond 500 ++ [{ textMessage 1 "u" "x" with Identity := 1 }]

/-- The export of `boundaryTie` from the store, with the clock at 1000. -/
def boundaryTieExport : Option Run :=
  exportToTxt sampleConsts (sampleSystem 1000)
    (storeProvider default (sampleUser "u" "N") boundaryTie) "u" "out" 600

/-- The export in which the first query returns the messages at times 300 and 200, the
second the message at time 100, and the third the empty page. -/
def twoPageExport : Option Run :=
  exportToTxt sampleConsts (sampleSystem 1000)
    (scriptedProvider (sampleUser "u" "N")
      [Fallible.ok ⟨2, [textMessage 300 "u" "c", textMessage 200 "u" "b"]⟩,
       Fallible.ok ⟨1, [textMessage 100 "u" "a"]⟩]) "u" "out" 5

/-! ## Strings -/

theorem append_ne_empty_of_left (a b : String) (h : a ≠ "") : a ++ b ≠ "" := by
  intro hc
  apply h
  have hd := congrArg String.data hc
  rw [String.data_append] at hd
  exact String.ext (List.append_eq_nil.mp hd).1

theorem infix_data_append_mid (a b c : String) : b.data <:+: (a ++ b ++ c).data := by
  refine ⟨a.data, c.data, ?_⟩
  simp [String.data_append]

theorem suffix_data_append (a b : String) : b.data <:+ (a ++ b).data := by
  refine ⟨a.data, ?_⟩
  simp [String.data_append]

/-! ## The texts of the footer and of the status -/

theorem exportFooter_eq (n : Nat) :
    exportFooter n =
      "\n==================================================\n导出完成，共导出 " ++ toString n ++
        " 条消息\n" := by
  have e1 : ("\n" ++ rule50 ++ "\n" : String) =
      "\n==================================================\n" := by decide
  have e2 : ("\n==================================================\n导出完成，共导出 " : String) =
      "\n==================================================\n" ++ "导出完成，共导出 " := by decide
  rw [exportFooter, e1, e2]
  simp only [String.append_assoc]

theorem exportSuccess_eq (fullPath : String) (n : Nat) :
    exportSuccess fullPath n =
      "\n✅ 导出成功！\n文件保存在: " ++ fullPath ++ "\n共导出 " ++ toString n ++ " 条消息" := rfl

/-! ## Message formatter -/

/-- C4. Sender precedence: the line of `formatMessageToText` carries the label "我" when
`IsSender` is 1; otherwise `ReMark` if it is non-empty, else `NickName` if it is non-empty,
else `UserName`. -/
theorem C4_sender_precedence (K : WechatConsts) (timeFormat : String → Int → String)
    (msg : WeChatMessage) (selfUserName : String) :
    (msg.IsSender = 1 →
      formatMessageToText K timeFormat msg selfUserName =
        composeLine (timeFormat layoutDateTime msg.CreateTime) "我" (messageContent K msg)) ∧
    (msg.IsSender ≠ 1 → msg.UserInfo.ReMark ≠ "" →
      formatMessageToText K timeFormat msg selfUserName =
        composeLine (timeFormat layoutDateTime msg.CreateTime) msg.UserInfo.ReMark
          (messageContent K msg)) ∧
    (msg.IsSender ≠ 1 → msg.UserInfo.ReMark = "" → msg.UserInfo.NickName ≠ "" →
      formatMessageToText K timeFormat msg selfUserName =
        composeLine (timeFormat layoutDateTime msg.CreateTime) msg.UserInfo.NickName
          (messageContent K msg)) ∧
    (msg.IsSender ≠ 1 → msg.UserInfo.ReMark = "" → msg.UserInfo.NickName = "" →
      formatMessageToText K timeFormat msg selfUserName =
        composeLine (timeFormat layoutDateTime msg.CreateTime) msg.UserInfo.UserName
          (messageContent K msg)) := by
  refine ⟨?_, ?_, ?_, ?_⟩
  · intro h
    simp [formatMessageToText, messageSender, h]
  · intro h hr
    simp [formatMessageToText, messageSender, h, hr]
  · intro h hr hn
    simp [formatMessageToText, messageSender, h, hr, hn]
  · intro h hr hn
    simp [formatMessageToText, messageSender, h, hr, hn]

/-- C4 at the messages of the claim: remark "A", nickname "B", user name "C" gives "A";
without remark "B"; without both "C"; and "我" for a message of the exporting identity. -/
theorem C4_sender_precedence_witness :
    formatMessageToText sampleConsts (sampleSystem 0).timeFormat (labelled "A" "B" "C") "me"
      = "[5] A: hi" ∧
    formatMessageToText sampleConsts (sampleSystem 0).timeFormat (labelled "" "B" "C") "me"
      = "[5] B: hi" ∧
    formatMessageToText sampleConsts (sampleSystem 0).timeFormat (labelled "" "" "C") "me"
      = "[5] C: hi" ∧
    formatMessageToText sampleConsts (sampleSystem 0).timeFormat
      { labelled "A" "B" "C" with IsSender := 1 } "me" = "[5] 我: hi" :=
  ⟨((C4_sender_precedence sampleConsts (sampleSystem 0).timeFormat (labelled "A" "B" "C")
      "me").2.1 (by decide) (by decide)).trans (by decide),
   ((C4_sender_precedence sampleConsts (sampleSystem 0).timeFormat (labelled "" "B" "C")
      "me").2.2.1 (by decide) (by decide) (by decide)).trans (by decide),
   ((C4_sender_precedence sampleConsts (sampleSystem 0).timeFormat (labelled "" "" "C")
      "me").2.2.2 (by decide) (by decide) (by decide)).trans (by decide),
   ((C4_sender_precedence sampleConsts (sampleSystem 0).timeFormat
      { labelled "A" "B" "C" with IsSender := 1 } "me").1 (by decide)).trans (by decide)⟩

theorem messageContent_unknown (K : WechatConsts) (msg : WeChatMessage)
    (h : msg.Type_ ∉ K.knownTypes) :
    messageContent K msg = "[未知消息类型:" ++ toString msg.Type_ ++ "] " ++ msg.Content := by
  simp only [WechatConsts.knownTypes, List.mem_cons, List.mem_singleton, not_or,
    List.not_mem_nil, or_false] at h
  obtain ⟨h1, h2, h3, h4, h5, h6, h7, h8, h9, h10⟩ := h
  simp [messageContent, h1, h2, h3, h4, h5, h6, h7, h8, h9, h10]

theorem formatMiscMessage_unknown (K : WechatConsts) (msg : WeChatMessage)
    (h : msg.SubType ∉ K.knownSubTypes) :
    formatMiscMessage K msg = "[其他消息:" ++ toString msg.SubType ++ "] " ++ msg.Content := by
  simp only [WechatConsts.knownSubTypes, List.mem_cons, List.mem_singleton, not_or,
    List.not_mem_nil, or_false] at h
  obtain ⟨h1, h2, h3, h4, h5, h6, h7, h8⟩ := h
  simp [formatMiscMessage, h1, h2, h3, h4, h5, h6, h7, h8]

theorem messageContent_misc (K : WechatConsts) (msg : WeChatMessage)
    (hK : K.knownTypes.Nodup) (h : msg.Type_ = K.Wechat_Message_Type_Misc) :
    messageContent K msg = formatMiscMessage K msg := by
  simp only [WechatConsts.knownTypes, List.nodup_cons, List.mem_cons, List.mem_singleton,
    not_or, List.not_mem_nil, or_false] at hK
  obtain ⟨⟨_, _, _, _, _, _, _, _, h1⟩, ⟨_, _, _, _, _, _, _, h2⟩, ⟨_, _, _, _, _, _, h3⟩,
    ⟨_, _, _, _, _, h4⟩, ⟨_, _, _, _, h5⟩, ⟨_, _, _, h6⟩, ⟨_, _, h7⟩, ⟨_, h8⟩, h9, _⟩ := hK
  simp [messageContent, h, Ne.symm h1, Ne.symm h2, Ne.symm h3, Ne.symm h4, Ne.symm h5,
    Ne.symm h6, Ne.symm h7, Ne.symm h8, Ne.symm h9]

/-- C5. Fallback rendering: for a `Type` outside the ten known kinds the line carries
exactly "[未知消息类型:<Type>] <Content>", and for a Misc message (the constants of the
`switch` being pairwise distinct, as the Go compiler demands of `case` constants) with a
`SubType` outside the eight known sub-kinds exactly "[其他消息:<SubType>] <Content>"; both
contents contain the decimal number and end with the free-text content. The formatter is a
total function to `String`: it has no failing result. -/
theorem C5_fallback_rendering (K : WechatConsts) (timeFormat : String → Int → String)
    (msg : WeChatMessage) (selfUserName : String) :
    (msg.Type_ ∉ K.knownTypes →
      formatMessageToText K timeFormat msg selfUserName =
        composeLine (timeFormat layoutDateTime msg.CreateTime) (messageSender msg)
          ("[未知消息类型:" ++ toString msg.Type_ ++ "] " ++ msg.Content) ∧
      (toString msg.Type_).data <:+: (messageContent K msg).data ∧
      msg.Content.data <:+ (messageContent K msg).data) ∧
    (K.knownTypes.Nodup → msg.Type_ = K.Wechat_Message_Type_Misc →
      msg.SubType ∉ K.knownSubTypes →
      formatMessageToText K timeFormat msg selfUserName =
        composeLine (timeFormat layoutDateTime msg.CreateTime) (messageSender msg)
          ("[其他消息:" ++ toString msg.SubType ++ "] " ++ msg.Content) ∧
      (toString msg.SubType).data <:+: (messageContent K msg).data ∧
      msg.Content.data <:+ (messageContent K msg).data) := by
  constructor
  · intro h
    have hc := messageContent_unknown K msg h
    refine ⟨by simp [formatMessageToText, hc], ?_, ?_⟩
    · rw [hc]
      refine ⟨"[未知消息类型:".data, ("] " ++ msg.Content).data, ?_⟩
      simp [String.data_append]
    · rw [hc]
      exact suffix_data_append _ _
  · intro hK hm hs
    have hc : messageContent K msg =
        "[其他消息:" ++ toString msg.SubType ++ "] " ++ msg.Content := by
      rw [messageContent_misc K msg hK hm, formatMiscMessage_unknown K msg hs]
    refine ⟨by simp [formatMessageToText, hc], ?_, ?_⟩
    · rw [hc]
      refine ⟨"[其他消息:".data, ("] " ++ msg.Content).data, ?_⟩
      simp [String.data_append]
    · rw [hc]
      exact suffix_data_append _ _

/-- C5 at a message of kind 9999 and at a Misc message of sub-kind 777. -/
theorem C5_fallback_rendering_witness :
    formatMessageToText sampleConsts (sampleSystem 0).timeFormat
      { textMessage 5 "C" "raw" with Type_ := 9999 } "me" = "[5] C: [未知消息类型:9999] raw" ∧
    formatMessageToText sampleConsts (sampleSystem 0).timeFormat
      { textMessage 5 "C" "raw" with Type_ := 49, SubType := -777 } "me"
        = "[5] C: [其他消息:-777] raw" :=
  ⟨((C5_fallback_rendering sampleConsts (sampleSystem 0).timeFormat
      { textMessage 5 "C" "raw" with Type_ := 9999 } "me").1 (by decide)).1.trans
      (by decide),
   ((C5_fallback_rendering sampleConsts (sampleSystem 0).timeFormat
      { textMessage 5 "C" "raw" with Type_ := 49, SubType := -777 } "me").2 (by decide)
      (by decide) (by decide)).1.trans (by decide)⟩

theorem formatMiscMessage_ne_empty (K : WechatConsts) (msg : WeChatMessage) :
    formatMiscMessage K msg ≠ "" := by
  unfold formatMiscMessage
  split_ifs
  all_goals
    first
    | exact append_ne_empty_of_left _ _ (by decide)
    | exact append_ne_empty_of_left _ _ (append_ne_empty_of_left _ _ (by decide))
    | exact append_ne_empty_of_left _ _
        (append_ne_empty_of_left _ _ (append_ne_empty_of_left _ _ (by decide)))

theorem messageContent_ne_empty (K : WechatConsts) (msg : WeChatMessage)
    (h : msg.Type_ ≠ K.Wechat_Message_Type_Text) : messageContent K msg ≠ "" := by
  unfold messageContent
  rw [if_neg h]
  split_ifs
  all_goals
    first
    | exact formatMiscMessage_ne_empty K msg
    | exact append_ne_empty_of_left _ _ (by decide)
    | exact append_ne_empty_of_left _ _ (append_ne_empty_of_left _ _ (by decide))
    | exact append_ne_empty_of_left _ _
        (append_ne_empty_of_left _ _ (append_ne_empty_of_left _ _ (by decide)))

/-- C6, as stated, fails: a Text message with empty `Content` has the empty content. -/
theorem C6_exhaustive_dispatch_counterexample :
    (textMessage 5 "C" "").Type_ = sampleConsts.Wechat_Message_Type_Text ∧
    messageContent sampleConsts (textMessage 5 "C" "") = "" ∧
    formatMessageToText sampleConsts (sampleSystem 0).timeFormat (textMessage 5 "C" "") "me"
      = "[5] C: " := by
  decide

/-- C6, amended. The line is composed around the content of the dispatch; that content is
non-empty for every message whose kind is not Text (so for Picture, Voice, Video, Emoji,
Location, VisitCard, Voip, System and Misc with any sub-kind, whatever the payload), and
for a Text message it is `Content` itself. -/
theorem C6_exhaustive_dispatch (K : WechatConsts) (timeFormat : String → Int → String)
    (msg : WeChatMessage) (selfUserName : String) :
    formatMessageToText K timeFormat msg selfUserName =
      composeLine (timeFormat layoutDateTime msg.CreateTime) (messageSender msg)
        (messageContent K msg) ∧
    (msg.Type_ ≠ K.Wechat_Message_Type_Text → messageContent K msg ≠ "") ∧
    (msg.Type_ = K.Wechat_Message_Type_Text → messageContent K msg = msg.Content) := by
  refine ⟨rfl, messageContent_ne_empty K msg, ?_⟩
  intro h
  simp [messageContent, h]

/-- C6 at a Picture message without path, a Misc message of an unknown sub-kind with empty
payload, and a Text message. -/
theorem C6_exhaustive_dispatch_witness :
    messageContent sampleConsts { textMessage 5 "C" "" with Type_ := 3 } ≠ "" ∧
    messageContent sampleConsts { textMessage 5 "C" "" with Type_ := 49, SubType := 6 } ≠ "" ∧
    messageContent sampleConsts (textMessage 5 "C" "hello") = "hello" :=
  ⟨(C6_exhaustive_dispatch sampleConsts (sampleSystem 0).timeFormat
      { textMessage 5 "C" "" with Type_ := 3 } "me").2.1 (by decide),
   (C6_exhaustive_dispatch sampleConsts (sampleSystem 0).timeFormat
      { textMessage 5 "C" "" with Type_ := 49, SubType := 6 } "me").2.1 (by decide),
   (C6_exhaustive_dispatch sampleConsts (sampleSystem 0).timeFormat
      (textMessage 5 "C" "hello") "me").2.2 (by decide)⟩

/-! ## Export engine: failures before and around the loop -/

/-- C8. NotFound: when the user lookup fails with error `e`, `exportToTxt` returns the
status naming the user and the error, with whatever loop bound; its only action is the
lookup: no file is created, nothing is written, no page query is issued. -/
theorem C8_not_found (K : WechatConsts) (S : System) (provider : WechatDataProvider)
    (userName outputPath : String) (fuel : Nat) (e : String)
    (hlookup : provider.WechatGetUserInfoByNameOnCache userName = Fallible.err e) :
    ∃ r, exportToTxt K S provider userName outputPath fuel = some r ∧
      r.trace = [Event.lookup userName] ∧
      r.outcome = Outcome.returned ("错误: 找不到用户 " ++ userName ++ ": " ++ e) ∧
      createLog r.trace = [] ∧ writeLog r.trace = [] ∧ queryLog r.trace = [] := by
  refine ⟨⟨[Event.lookup userName],
    Outcome.returned ("错误: 找不到用户 " ++ userName ++ ": " ++ e)⟩, ?_, rfl, rfl, rfl, rfl, rfl⟩
  simp [exportToTxt, hlookup]

/-- C8 at a store that knows only the user "u", asked for "nobody". -/
theorem C8_not_found_witness :
    ∃ r, exportToTxt sampleConsts (sampleSystem 1000)
        (storeProvider default (sampleUser "u" "N") (everySecond 3)) "nobody" "out" 0 = some r ∧
      r.trace = [Event.lookup "nobody"] ∧
      r.outcome = Outcome.returned ("错误: 找不到用户 " ++ "nobody" ++ ": " ++ "user not found") ∧
      createLog r.trace = [] ∧ writeLog r.trace = [] ∧ queryLog r.trace = [] :=
  C8_not_found sampleConsts (sampleSystem 1000)
    (storeProvider default (sampleUser "u" "N") (everySecond 3)) "nobody" "out" 0
    "user not found" (by decide)

theorem exportLoop_exit_writeString (K : WechatConsts) (S : System)
    (provider : WechatDataProvider) (userName : String) (W : Nat → String → Option String) :
    ∀ (fuel queryNo : Nat) (currentTime : Int) (totalMessages : Nat),
      (exportLoop K { S with WriteString := W } provider userName fuel queryNo currentTime
        totalMessages).map Prod.snd =
      (exportLoop K S provider userName fuel queryNo currentTime totalMessages).map
        Prod.snd := by
  intro fuel
  induction fuel with
  | zero => intro _ _ _; rfl
  | succ fuel ih =>
    intro queryNo currentTime totalMessages
    simp only [exportLoop]
    cases askPage provider userName queryNo currentTime with
    | err e => rfl
    | ok messageList =>
      simp only
      by_cases h0 : messageList.Total = 0
      · simp [h0]
      · simp only [h0, if_false]
        cases indexRows messageList.Rows (messageList.Total - 1) with
        | none => rfl
        | some last =>
          simp only
          have := ih (queryNo + 1) (wrapInt64 (last.CreateTime - 1))
            (totalMessages + messageList.Rows.length)
          revert this
          cases exportLoop K { S with WriteString := W } provider userName fuel (queryNo + 1)
              (wrapInt64 (last.CreateTime - 1)) (totalMessages + messageList.Rows.length) <;>
            cases exportLoop K S provider userName fuel (queryNo + 1)
              (wrapInt64 (last.CreateTime - 1)) (totalMessages + messageList.Rows.length) <;>
            simp

/-- C9, as stated, fails: with every write of header, message line and footer failing, the
export still returns the success status with the count 1. -/
theorem C9_output_write_error_counterexample :
    exportToTxt sampleConsts diskFull
        (storeProvider default (sampleUser "u" "N") [textMessage 300 "u" "c"]) "u" "out" 2 =
      some ⟨[Event.lookup "u", Event.create "out/wechat_chat_u_1000.txt" none,
          Event.write (exportHeader diskFull (sampleUser "u" "N")) (some "disk full"),
          Event.stdout "正在导出 N 的聊天记录...\n",
          Event.query "u" 1000 500 Message_Search_Direction.Message_Search_Forward
            (Fallible.ok ⟨1, [textMessage 300 "u" "c"]⟩),
          Event.write "[300] u: c\n" (some "disk full"),
          Event.stdout "已处理 1 条消息...\r",
          Event.query "u" 299 500 Message_Search_Direction.Message_Search_Forward
            (Fallible.ok ⟨0, []⟩),
          Event.write (exportFooter 1) (some "disk full"), Event.close],
        Outcome.returned (exportSuccess "out/wechat_chat_u_1000.txt" 1)⟩ := by
  decide

/-- C9, amended. Only the failure to create the output file is fatal: the export then ends
with the failure status carrying the cause, having written nothing and queried nothing.
The errors of `WriteString` are discarded: replacing the write behaviour of the system by
any other leaves the outcome of the export (status string and count) unchanged. -/
theorem C9_output_write_error (K : WechatConsts) (S : System)
    (provider : WechatDataProvider) (userName outputPath : String) (fuel : Nat) :
    (∀ userInfo e, provider.WechatGetUserInfoByNameOnCache userName = Fallible.ok userInfo →
      S.osCreate (exportPath S userName outputPath) = some e →
      exportToTxt K S provider userName outputPath fuel =
        some ⟨[Event.lookup userName,
            Event.create (exportPath S userName outputPath) (some e)],
          Outcome.returned ("错误: 创建文件失败: " ++ e)⟩) ∧
    (∀ W : Nat → String → Option String,
      (exportToTxt K { S with WriteString := W } provider userName outputPath fuel).map
        Run.outcome =
      (exportToTxt K S provider userName outputPath fuel).map Run.outcome) := by
  constructor
  · intro userInfo e hu hc
    simp [exportToTxt, hu, hc]
  · intro W
    simp only [exportToTxt]
    cases provider.WechatGetUserInfoByNameOnCache userName with
    | err e => rfl
    | ok userInfo =>
      simp only
      have hp : exportPath { S with WriteString := W } userName outputPath =
          exportPath S userName outputPath := rfl
      rw [hp]
      cases hcr : S.osCreate (exportPath S userName outputPath) with
      | some e => simp [hcr]
      | none =>
        simp only [hcr]
        have := exportLoop_exit_writeString K S provider userName W fuel 0 (S.now 2) 0
        revert this
        have hn : ({ S with WriteString := W } : System).now 2 = S.now 2 := rfl
        rw [hn]
        cases exportLoop K { S with WriteString := W } provider userName fuel 0 (S.now 2) 0
          with
        | none =>
          cases exportLoop K S provider userName fuel 0 (S.now 2) 0 <;> simp
        | some r1 =>
          obtain ⟨ev1, exit1⟩ := r1
          cases hl : exportLoop K S provider userName fuel 0 (S.now 2) 0 with
          | none => simp
          | some r2 =>
            obtain ⟨ev2, exit2⟩ := r2
            intro h
            simp only [Option.map_some', Option.some.injEq] at h
            subst h
            cases exit1 <;> simp

/-- C9 at a system in which the file cannot be created, and at the system whose writes all
fail, compared with the one whose writes succeed. -/
theorem C9_output_write_error_witness :
    exportToTxt sampleConsts readOnly
        (storeProvider default (sampleUser "u" "N") (everySecond 3)) "u" "out" 5 =
      some ⟨[Event.lookup "u", Event.create (exportPath readOnly "u" "out")
          (some "permission denied")],
        Outcome.returned ("错误: 创建文件失败: " ++ "permission denied")⟩ ∧
    (exportToTxt sampleConsts
        { sampleSystem 1000 with WriteString := fun _ _ => some "disk full" }
        (storeProvider default (sampleUser "u" "N") (everySecond 3)) "u" "out" 5).map
        Run.outcome =
      (exportToTxt sampleConsts (sampleSystem 1000)
        (storeProvider default (sampleUser "u" "N") (everySecond 3)) "u" "out" 5).map
        Run.outcome :=
  ⟨(C9_output_write_error sampleConsts readOnly
      (storeProvider default (sampleUser "u" "N") (everySecond 3)) "u" "out" 5).1
      (sampleUser "u" "N") "permission denied" (by decide) (by decide),
   (C9_output_write_error sampleConsts (sampleSystem 1000)
      (storeProvider default (sampleUser "u" "N") (everySecond 3)) "u" "out" 5).2
      (fun _ _ => some "disk full")⟩

/-! ## Reading the trace of the loop -/

theorem queryLog_append (a b : List Event) : queryLog (a ++ b) = queryLog a ++ queryLog b := by
  induction a with
  | nil => rfl
  | cons e a ih => cases e <;> simp [queryLog, ih]

theorem writeLog_append (a b : List Event) : writeLog (a ++ b) = writeLog a ++ writeLog b := by
  induction a with
  | nil => rfl
  | cons e a ih => cases e <;> simp [writeLog, ih]

theorem queryLog_writeRows (K : WechatConsts) (S : System) (selfUserName : String)
    (rows : List WeChatMessage) (n : Nat) : queryLog (writeRows K S selfUserName n rows) = [] := by
  induction rows generalizing n with
  | nil => rfl
  | cons m rows ih => simp [writeRows, queryLog, ih]

theorem writeLog_writeRows (K : WechatConsts) (S : System) (selfUserName : String)
    (rows : List WeChatMessage) (n : Nat) :
    writeLog (writeRows K S selfUserName n rows) =
      rows.map (fun m => formatMessageToText K S.timeFormat m selfUserName ++ "\n") := by
  induction rows generalizing n with
  | nil => rfl
  | cons m rows ih => simp [writeRows, writeLog, ih]

theorem queryLog_pageEvents (K : WechatConsts) (S : System) (provider : WechatDataProvider)
    (totalMessages : Nat) (rows : List WeChatMessage) :
    queryLog (pageEvents K S provider totalMessages rows) = [] := by
  simp [pageEvents, queryLog_append, queryLog_writeRows, queryLog]

theorem writeLog_pageEvents (K : WechatConsts) (S : System) (provider : WechatDataProvider)
    (totalMessages : Nat) (rows : List WeChatMessage) :
    writeLog (pageEvents K S provider totalMessages rows) =
      rows.map (fun m =>
        formatMessageToText K S.timeFormat m provider.SelfInfo.UserName ++ "\n") := by
  simp [pageEvents, writeLog_append, writeLog_writeRows, writeLog]

theorem queryLog_queryEvent_cons (provider : WechatDataProvider) (userName : String)
    (queryNo : Nat) (currentTime : Int) (rest : List Event) :
    queryLog (queryEvent provider userName queryNo currentTime :: rest) =
      (currentTime, askPage provider userName queryNo currentTime) :: queryLog rest := rfl

/-- One iteration of the loop: the four ways it can go. -/
theorem exportLoop_cases {K : WechatConsts} {S : System} {provider : WechatDataProvider}
    {userName : String} {fuel queryNo : Nat} {currentTime : Int} {totalMessages : Nat}
    {events : List Event} {exit : LoopExit}
    (h : exportLoop K S provider userName (fuel + 1) queryNo currentTime totalMessages =
      some (events, exit)) :
    (∃ e, askPage provider userName queryNo currentTime = Fallible.err e ∧
      events = [queryEvent provider userName queryNo currentTime,
        Event.log ("获取消息失败: " ++ e ++ "\n")] ∧
      exit = LoopExit.finished totalMessages) ∨
    (∃ page, askPage provider userName queryNo currentTime = Fallible.ok page ∧
      page.Total = 0 ∧ events = [queryEvent provider userName queryNo currentTime] ∧
      exit = LoopExit.finished totalMessages) ∨
    (∃ page, askPage provider userName queryNo currentTime = Fallible.ok page ∧
      page.Total ≠ 0 ∧ indexRows page.Rows (page.Total - 1) = none ∧
      events = queryEvent provider userName queryNo currentTime ::
        pageEvents K S provider totalMessages page.Rows ∧
      exit = LoopExit.indexOutOfRange) ∨
    (∃ page last rest, askPage provider userName queryNo currentTime = Fallible.ok page ∧
      page.Total ≠ 0 ∧ indexRows page.Rows (page.Total - 1) = some last ∧
      exportLoop K S provider userName fuel (queryNo + 1) (wrapInt64 (last.CreateTime - 1))
        (totalMessages + page.Rows.length) = some (rest, exit) ∧
      events = queryEvent provider userName queryNo currentTime ::
        pageEvents K S provider totalMessages page.Rows ++ rest) := by
  simp only [exportLoop] at h
  cases ha : askPage provider userName queryNo currentTime with
  | err e =>
    rw [ha] at h
    simp only [Option.some.injEq, Prod.mk.injEq] at h
    exact Or.inl ⟨e, rfl, h.1.symm, h.2.symm⟩
  | ok page =>
    rw [ha] at h
    simp only at h
    by_cases h0 : page.Total = 0
    · simp only [h0, if_true, Option.some.injEq, Prod.mk.injEq] at h
      exact Or.inr (Or.inl ⟨page, rfl, h0, h.1.symm, h.2.symm⟩)
    · simp only [h0, if_false] at h
      cases hi : indexRows page.Rows (page.Total - 1) with
      | none =>
        rw [hi] at h
        simp only [Option.some.injEq, Prod.mk.injEq] at h
        exact Or.inr (Or.inr (Or.inl ⟨page, rfl, h0, hi, h.1.symm, h.2.symm⟩))
      | some last =>
        rw [hi] at h
        simp only at h
        cases hr : exportLoop K S provider userName fuel (queryNo + 1)
            (wrapInt64 (last.CreateTime - 1)) (totalMessages + page.Rows.length) with
        | none => rw [hr] at h; simp at h
        | some r =>
          obtain ⟨rest, exit'⟩ := r
          rw [hr] at h
          simp only [Option.some.injEq, Prod.mk.injEq] at h
          refine Or.inr (Or.inr (Or.inr ⟨page, last, rest, rfl, h0, hi, ?_, ?_⟩))
          · rw [hr, h.2]
          · rw [← h.1]

/-- A run of `exportToTxt`: the three ways it can go. -/
theorem exportToTxt_cases {K : WechatConsts} {S : System} {provider : WechatDataProvider}
    {userName outputPath : String} {fuel : Nat} {r : Run}
    (h : exportToTxt K S provider userName outputPath fuel = some r) :
    (∃ e, provider.WechatGetUserInfoByNameOnCache userName = Fallible.err e ∧
      r = ⟨[Event.lookup userName],
        Outcome.returned ("错误: 找不到用户 " ++ userName ++ ": " ++ e)⟩) ∨
    (∃ userInfo e, provider.WechatGetUserInfoByNameOnCache userName = Fallible.ok userInfo ∧
      S.osCreate (exportPath S userName outputPath) = some e ∧
      r = ⟨[Event.lookup userName, Event.create (exportPath S userName outputPath) (some e)],
        Outcome.returned ("错误: 创建文件失败: " ++ e)⟩) ∨
    (∃ userInfo events exit,
      provider.WechatGetUserInfoByNameOnCache userName = Fallible.ok userInfo ∧
      S.osCreate (exportPath S userName outputPath) = none ∧
      exportLoop K S provider userName fuel 0 (S.now 2) 0 = some (events, exit) ∧
      r.trace = [Event.lookup userName, Event.create (exportPath S userName outputPath) none,
          Event.write (exportHeader S userInfo) (S.WriteString 0 (exportHeader S userInfo)),
          Event.stdout ("正在导出 " ++ userInfo.NickName ++ " 的聊天记录...\n")] ++ events ++
        (match exit with
          | LoopExit.indexOutOfRange => [Event.close]
          | LoopExit.finished totalMessages =>
            [Event.write (exportFooter totalMessages)
              (S.WriteString (totalMessages + 1) (exportFooter totalMessages)), Event.close]) ∧
      r.outcome = (match exit with
          | LoopExit.indexOutOfRange => Outcome.panicked
          | LoopExit.finished totalMessages =>
            Outcome.returned (exportSuccess (exportPath S userName outputPath)
              totalMessages))) := by
  simp only [exportToTxt] at h
  cases hu : provider.WechatGetUserInfoByNameOnCache userName with
  | err e =>
    rw [hu] at h
    simp only [Option.some.injEq] at h
    exact Or.inl ⟨e, rfl, h.symm⟩
  | ok userInfo =>
    rw [hu] at h
    simp only at h
    cases hc : S.osCreate (exportPath S userName outputPath) with
    | some e =>
      rw [hc] at h
      simp only [Option.some.injEq] at h
      exact Or.inr (Or.inl ⟨userInfo, e, rfl, rfl, h.symm⟩)
    | none =>
      rw [hc] at h
      simp only at h
      cases hl : exportLoop K S provider userName fuel 0 (S.now 2) 0 with
      | none => rw [hl] at h; simp at h
      | some p =>
        obtain ⟨events, exit⟩ := p
        rw [hl] at h
        refine Or.inr (Or.inr ⟨userInfo, events, exit, rfl, rfl, rfl, ?_⟩)
        cases exit with
        | finished n =>
          simp only [Option.some.injEq] at h
          subst h
          exact ⟨rfl, rfl⟩
        | indexOutOfRange =>
          simp only [Option.some.injEq] at h
          subst h
          exact ⟨rfl, rfl⟩

/-- The queries of a run that reached the loop are those of the loop. -/
theorem queryLog_run (start events : List Event) (exit : LoopExit) (S : System)
    (hs : queryLog start = []) :
    queryLog (start ++ events ++
      (match exit with
        | LoopExit.indexOutOfRange => [Event.close]
        | LoopExit.finished totalMessages =>
          [Event.write (exportFooter totalMessages)
            (S.WriteString (totalMessages + 1) (exportFooter totalMessages)), Event.close])) =
      queryLog events := by
  cases exit <;> simp [queryLog_append, hs, queryLog]

/-! ## The cursor -/

theorem wrapInt64_pred (x : Int) (hlo : minInt64 < x) (hhi : x ≤ maxInt64) :
    wrapInt64 (x - 1) = x - 1 := by
  simp only [wrapInt64, minInt64, maxInt64] at *
  omega

theorem indexRows_mem {rows : List WeChatMessage} {i : Int} {m : WeChatMessage}
    (h : indexRows rows i = some m) : m ∈ rows := by
  unfold indexRows at h
  split_ifs at h
  exact List.get?_mem h

theorem indexRows_last_isSome (rows : List WeChatMessage) (h : rows ≠ []) :
    ∃ m, indexRows rows ((rows.length : Int) - 1) = some m := by
  have hpos : 0 < rows.length := List.length_pos.mpr h
  have h0 : (0 : Int) ≤ (rows.length : Int) - 1 := by omega
  have hlt : ((rows.length : Int) - 1).toNat < rows.length := by omega
  refine ⟨rows.get ⟨_, hlt⟩, ?_⟩
  simp [indexRows, h0, List.get?_eq_get hlt]

/-- The first query of the loop carries the cursor the loop was started with. -/
theorem queryLog_exportLoop_head {K : WechatConsts} {S : System}
    {provider : WechatDataProvider} {userName : String} {fuel queryNo : Nat}
    {currentTime : Int} {totalMessages : Nat} {events : List Event} {exit : LoopExit}
    (h : exportLoop K S provider userName fuel queryNo currentTime totalMessages =
      some (events, exit)) :
    ∃ tl, queryLog events = (currentTime, askPage provider userName queryNo currentTime) :: tl := by
  cases fuel with
  | zero => simp [exportLoop] at h
  | succ fuel =>
    rcases exportLoop_cases h with ⟨e, _, hev, _⟩ | ⟨page, _, _, hev, _⟩ |
      ⟨page, _, _, _, hev, _⟩ | ⟨page, last, rest, _, _, _, _, hev⟩
    · exact ⟨[], by rw [hev]; rfl⟩
    · exact ⟨[], by rw [hev]; rfl⟩
    · exact ⟨[], by rw [hev, queryLog_queryEvent_cons, queryLog_pageEvents]⟩
    · exact ⟨queryLog rest, by
        rw [hev, queryLog_append, queryLog_queryEvent_cons, queryLog_pageEvents]; rfl⟩

theorem chain_cursorStep_exportLoop {K : WechatConsts} {S : System}
    {provider : WechatDataProvider} {userName : String} :
    ∀ {fuel queryNo : Nat} {currentTime : Int} {totalMessages : Nat} {events : List Event}
      {exit : LoopExit},
      exportLoop K S provider userName fuel queryNo currentTime totalMessages =
        some (events, exit) →
      List.Chain' CursorStep (queryLog events) := by
  intro fuel
  induction fuel with
  | zero => intro _ _ _ _ _ h; simp [exportLoop] at h
  | succ fuel ih =>
    intro queryNo currentTime totalMessages events exit h
    rcases exportLoop_cases h with ⟨e, _, hev, _⟩ | ⟨page, _, _, hev, _⟩ |
      ⟨page, _, _, _, hev, _⟩ | ⟨page, last, rest, ha, h0, hi, hrest, hev⟩
    · rw [hev]; exact List.chain'_singleton _
    · rw [hev]; exact List.chain'_singleton _
    · rw [hev, queryLog_queryEvent_cons, queryLog_pageEvents]; exact List.chain'_singleton _
    · rw [hev, queryLog_append, queryLog_queryEvent_cons, queryLog_pageEvents,
        List.singleton_append]
      obtain ⟨tl, htl⟩ := queryLog_exportLoop_head hrest
      rw [List.chain'_cons']
      refine ⟨?_, ih hrest⟩
      intro y hy
      rw [htl] at hy
      simp only [List.head?_cons, Option.mem_def, Option.some.injEq] at hy
      subst hy
      exact ⟨page, last, ha, h0, hi, rfl⟩

/-- C2, as stated, fails: after a page whose rows come oldest first (times 100, 200) the
next cursor is 199, not below the minimum 100; and after a page whose last row has the
least `int64` as `CreateTime` the next cursor is the greatest `int64`. -/
theorem C2_cursor_monotonicity_counterexample :
    (exportToTxt sampleConsts (sampleSystem 1000)
        (scriptedProvider (sampleUser "u" "N")
          [Fallible.ok ⟨2, [textMessage 100 "u" "a", textMessage 200 "u" "b"]⟩])
        "u" "out" 3).map (fun r => queryLog r.trace) =
      some [(1000, Fallible.ok ⟨2, [textMessage 100 "u" "a", textMessage 200 "u" "b"]⟩),
        (199, Fallible.ok ⟨0, []⟩)] ∧
    (exportToTxt sampleConsts (sampleSystem 1000)
        (scriptedProvider (sampleUser "u" "N")
          [Fallible.ok ⟨1, [textMessage minInt64 "u" "a"]⟩])
        "u" "out" 3).map (fun r => queryLog r.trace) =
      some [(1000, Fallible.ok ⟨1, [textMessage minInt64 "u" "a"]⟩),
        (maxInt64, Fallible.ok ⟨0, []⟩)] := by
  decide

/-- C2, amended. In every run, for every two consecutive queries, the page of the first
is non-empty, its row `Rows[Total-1]` exists, and the cursor of the second is that row's
`CreateTime - 1` in `int64` arithmetic; that cursor is strictly less than the `CreateTime`
of every row of the page whenever that row carries the page's least `CreateTime` and it is
an `int64` above the least one. -/
theorem C2_cursor_monotonicity (K : WechatConsts) (S : System)
    (provider : WechatDataProvider) (userName outputPath : String) (fuel : Nat) (r : Run)
    (hrun : exportToTxt K S provider userName outputPath fuel = some r) :
    List.Chain' (fun a b => ∃ page last, a.2 = Fallible.ok page ∧ page.Total ≠ 0 ∧
        indexRows page.Rows (page.Total - 1) = some last ∧
        b.1 = wrapInt64 (last.CreateTime - 1) ∧
        (minInt64 < last.CreateTime → last.CreateTime ≤ maxInt64 →
          (∀ m ∈ page.Rows, last.CreateTime ≤ m.CreateTime) →
          ∀ m ∈ page.Rows, b.1 < m.CreateTime))
      (queryLog r.trace) := by
  have hchain : List.Chain' CursorStep (queryLog r.trace) := by
    rcases exportToTxt_cases hrun with ⟨e, _, hr⟩ | ⟨userInfo, e, _, _, hr⟩ |
      ⟨userInfo, events, exit, _, _, hloop, htrace, _⟩
    · rw [hr]; exact List.chain'_nil
    · rw [hr]; exact List.chain'_nil
    · rw [htrace, queryLog_run]
      · exact chain_cursorStep_exportLoop hloop
      · rfl
  refine hchain.imp ?_
  rintro a b ⟨page, last, ha, h0, hi, hb⟩
  refine ⟨page, last, ha, h0, hi, hb, ?_⟩
  intro hlo hhi hmin m hm
  rw [hb, wrapInt64_pred _ hlo hhi]
  have := hmin m hm
  omega

/-- C2 at the export of three messages at times 3, 2, 1 from the store: the second cursor
is 0. -/
theorem C2_cursor_monotonicity_witness :
    queryLog (runOf (exportToTxt sampleConsts (sampleSystem 1000)
      (storeProvider default (sampleUser "u" "N") (everySecond 3)) "u" "out" 5)).trace =
      [(1000, Fallible.ok ⟨3, everySecond 3⟩), (0, Fallible.ok ⟨0, []⟩)] ∧
    List.Chain' (fun a b => ∃ page last, a.2 = Fallible.ok page ∧ page.Total ≠ 0 ∧
        indexRows page.Rows (page.Total - 1) = some last ∧
        b.1 = wrapInt64 (last.CreateTime - 1) ∧
        (minInt64 < last.CreateTime → last.CreateTime ≤ maxInt64 →
          (∀ m ∈ page.Rows, last.CreateTime ≤ m.CreateTime) →
          ∀ m ∈ page.Rows, b.1 < m.CreateTime))
      (queryLog (runOf (exportToTxt sampleConsts (sampleSystem 1000)
        (storeProvider default (sampleUser "u" "N") (everySecond 3)) "u" "out" 5)).trace) :=
  ⟨by decide, C2_cursor_monotonicity sampleConsts (sampleSystem 1000)
    (storeProvider default (sampleUser "u" "N") (everySecond 3)) "u" "out" 5 _ (by decide)⟩

/-! ## Page-retrieval failure -/

theorem exportLoop_failed_query {K : WechatConsts} {S : System}
    {provider : WechatDataProvider} {userName : String} :
    ∀ {fuel queryNo : Nat} {currentTime : Int} {totalMessages : Nat} {events : List Event}
      {exit : LoopExit} {i : Nat} {c : Int} {e : String},
      exportLoop K S provider userName fuel queryNo currentTime totalMessages =
        some (events, exit) →
      (queryLog events)[i]? = some (c, Fallible.err e) →
      (queryLog events).length = i + 1 ∧
      exit = LoopExit.finished (totalMessages + rowsReceived ((queryLog events).take i)) ∧
      ∃ pre, events = pre ++
        [Event.query userName c pageSize Message_Search_Direction.Message_Search_Forward
          (Fallible.err e), Event.log ("获取消息失败: " ++ e ++ "\n")] := by
  intro fuel
  induction fuel with
  | zero => intro _ _ _ _ _ _ _ _ h; simp [exportLoop] at h
  | succ fuel ih =>
    intro queryNo currentTime totalMessages events exit i c e h hq
    rcases exportLoop_cases h with ⟨e0, ha, hev, hex⟩ | ⟨page, ha, _, hev, _⟩ |
      ⟨page, ha, _, _, hev, _⟩ | ⟨page, last, rest, ha, h0, hi, hrest, hev⟩
    · subst hev
      rw [show queryLog [queryEvent provider userName queryNo currentTime,
          Event.log ("获取消息失败: " ++ e0 ++ "\n")] =
          [(currentTime, askPage provider userName queryNo currentTime)] from rfl] at hq ⊢
      cases i with
      | zero =>
        simp only [List.getElem?_cons_zero, Option.some.injEq, Prod.mk.injEq] at hq
        obtain ⟨hc, he⟩ := hq
        rw [ha] at he
        simp only [Fallible.err.injEq] at he
        subst hc he
        refine ⟨rfl, by simpa [rowsReceived] using hex, [], ?_⟩
        simp [queryEvent, ha]
      | succ j => simp at hq
    · subst hev
      rw [show queryLog [queryEvent provider userName queryNo currentTime] =
          [(currentTime, askPage provider userName queryNo currentTime)] from rfl, ha] at hq
      cases i with
      | zero => simp at hq
      | succ j => simp at hq
    · subst hev
      rw [queryLog_queryEvent_cons, queryLog_pageEvents, ha] at hq
      cases i with
      | zero => simp at hq
      | succ j => simp at hq
    · subst hev
      rw [queryLog_append, queryLog_queryEvent_cons, queryLog_pageEvents,
        List.singleton_append, ha] at hq ⊢
      cases i with
      | zero => simp at hq
      | succ j =>
        simp only [List.getElem?_cons_succ] at hq
        obtain ⟨hlen, hexit, pre, hpre⟩ := ih hrest hq
        refine ⟨by simp [hlen], ?_, queryEvent provider userName queryNo currentTime ::
          pageEvents K S provider totalMessages page.Rows ++ pre, ?_⟩
        · rw [hexit]
          simp [rowsReceived, Nat.add_assoc]
        · rw [hpre]
          simp

/-- In a run, a failed page query is the last query; the trace ends with that query, the
log line, the footer and the close of the file, and the count of the footer and of the
status is the number of rows of the pages before it. -/
theorem failed_query_is_last (K : WechatConsts) (S : System)
    (provider : WechatDataProvider) (userName outputPath : String) (fuel : Nat) (r : Run)
    (i : Nat) (c : Int) (e : String)
    (hrun : exportToTxt K S provider userName outputPath fuel = some r)
    (hfail : (queryLog r.trace)[i]? = some (c, Fallible.err e)) :
    (queryLog r.trace).length = i + 1 ∧
    (∃ pre w, r.trace = pre ++
      [Event.query userName c pageSize Message_Search_Direction.Message_Search_Forward
          (Fallible.err e),
        Event.log ("获取消息失败: " ++ e ++ "\n"),
        Event.write (exportFooter (rowsReceived ((queryLog r.trace).take i))) w,
        Event.close]) ∧
    r.outcome = Outcome.returned (exportSuccess (exportPath S userName outputPath)
      (rowsReceived ((queryLog r.trace).take i))) := by
  rcases exportToTxt_cases hrun with ⟨e0, _, hr⟩ | ⟨userInfo, e0, _, _, hr⟩ |
    ⟨userInfo, events, exit, _, _, hloop, htrace, hout⟩
  · rw [hr] at hfail; simp [queryLog] at hfail
  · rw [hr] at hfail; simp [queryLog] at hfail
  · have hlog : queryLog r.trace = queryLog events := by
      rw [htrace, queryLog_run]; rfl
    rw [hlog] at hfail ⊢
    obtain ⟨hlen, hexit, pre, hpre⟩ := exportLoop_failed_query hloop hfail
    subst hexit
    refine ⟨hlen, ⟨[Event.lookup userName,
        Event.create (exportPath S userName outputPath) none,
        Event.write (exportHeader S userInfo) (S.WriteString 0 (exportHeader S userInfo)),
        Event.stdout ("正在导出 " ++ userInfo.NickName ++ " 的聊天记录...\n")] ++ pre,
      S.WriteString (rowsReceived ((queryLog events).take i) + 1)
        (exportFooter (rowsReceived ((queryLog events).take i))), ?_⟩, ?_⟩
    · rw [htrace, hpre]
      simp
    · rw [hout]
      simp

/-! ## The termination signal -/

theorem exportLoop_last_iff_empty {K : WechatConsts} {S : System}
    {provider : WechatDataProvider} {userName : String} :
    ∀ {fuel queryNo : Nat} {currentTime : Int} {totalMessages : Nat} {events : List Event}
      {exit : LoopExit} {i : Nat} {c : Int} {page : WeChatMessageList},
      exportLoop K S provider userName fuel queryNo currentTime totalMessages =
        some (events, exit) →
      (∀ q ∈ queryLog events, ∃ p, q.2 = Fallible.ok p ∧ p.Total = p.Rows.length) →
      (queryLog events)[i]? = some (c, Fallible.ok page) →
      (i + 1 = (queryLog events).length ↔ page.Rows = []) := by
  intro fuel
  induction fuel with
  | zero => intro _ _ _ _ _ _ _ _ h; simp [exportLoop] at h
  | succ fuel ih =>
    intro queryNo currentTime totalMessages events exit i c page h hall hq
    rcases exportLoop_cases h with ⟨e0, ha, hev, hex⟩ | ⟨page0, ha, h0, hev, _⟩ |
      ⟨page0, ha, h0, hi, hev, _⟩ | ⟨page0, last, rest, ha, h0, hi, hrest, hev⟩
    · subst hev
      have hlog : queryLog [queryEvent provider userName queryNo currentTime,
          Event.log ("获取消息失败: " ++ e0 ++ "\n")] =
          [(currentTime, Fallible.err e0)] := by rw [← ha]; rfl
      rw [hlog] at hall
      obtain ⟨p, hp, _⟩ := hall _ (List.mem_singleton_self _)
      simp at hp
    · subst hev
      have hlog : queryLog [queryEvent provider userName queryNo currentTime] =
          [(currentTime, Fallible.ok page0)] := by rw [← ha]; rfl
      rw [hlog] at hall hq ⊢
      obtain ⟨p, hp, hpl⟩ := hall _ (List.mem_singleton_self _)
      simp only [Fallible.ok.injEq] at hp
      subst hp
      cases i with
      | zero =>
        simp only [List.getElem?_cons_zero, Option.some.injEq, Prod.mk.injEq,
          Fallible.ok.injEq] at hq
        obtain ⟨_, hpage⟩ := hq
        subst hpage
        have : page0.Rows.length = 0 := by
          have := hpl ▸ h0
          exact_mod_cast this
        simp [List.length_eq_zero.mp this]
      | succ j => simp at hq
    · subst hev
      have hlog : queryLog (queryEvent provider userName queryNo currentTime ::
          pageEvents K S provider totalMessages page0.Rows) =
          [(currentTime, Fallible.ok page0)] := by
        rw [queryLog_queryEvent_cons, queryLog_pageEvents, ha]
      rw [hlog] at hall
      obtain ⟨p, hp, hpl⟩ := hall _ (List.mem_singleton_self _)
      simp only [Fallible.ok.injEq] at hp
      subst hp
      have hne : page0.Rows ≠ [] := by
        intro hnil
        apply h0
        rw [hpl, hnil]
        rfl
      obtain ⟨m, hm⟩ := indexRows_last_isSome page0.Rows hne
      rw [hpl, hm] at hi
      simp at hi
    · subst hev
      have hlog : queryLog (queryEvent provider userName queryNo currentTime ::
          pageEvents K S provider totalMessages page0.Rows ++ rest) =
          (currentTime, Fallible.ok page0) :: queryLog rest := by
        rw [queryLog_append, queryLog_queryEvent_cons, queryLog_pageEvents,
          List.singleton_append, ha]
      rw [hlog] at hall hq ⊢
      obtain ⟨tl, htl⟩ := queryLog_exportLoop_head hrest
      cases i with
      | zero =>
        simp only [List.getElem?_cons_zero, Option.some.injEq, Prod.mk.injEq,
          Fallible.ok.injEq] at hq
        obtain ⟨_, hpage⟩ := hq
        subst hpage
        obtain ⟨p, hp, hpl⟩ := hall _ (List.mem_cons_self _ _)
        simp only [Fallible.ok.injEq] at hp
        subst hp
        have hne : page0.Rows ≠ [] := by
          intro hnil
          apply h0
          rw [hpl, hnil]
          rfl
        rw [htl]
        simp [hne]
      | succ j =>
        simp only [List.getElem?_cons_succ] at hq
        have := ih hrest (fun q hq' => hall q (List.mem_cons_of_mem _ hq')) hq
        rw [← this]
        simp

/-- C10, as stated, fails: a provider that never fails answers the first query with a page
of one row whose `Total` is 2; the loop ends at that query (the index expression panics),
although the page is not empty and has fewer than 500 rows. -/
theorem C10_empty_page_signal_counterexample :
    (exportToTxt sampleConsts (sampleSystem 1000)
        (scriptedProvider (sampleUser "u" "N") [Fallible.ok ⟨2, [textMessage 300 "u" "c"]⟩])
        "u" "out" 5).map (fun r => (queryLog r.trace, r.outcome)) =
      some ([(1000, Fallible.ok ⟨2, [textMessage 300 "u" "c"]⟩)], Outcome.panicked) := by
  decide

/-- C10, amended. In a run in which no page query fails and every page has `Total` equal
to the number of its rows, a query is the last one of the run if and only if its page is
empty; in particular a non-empty page, also one with fewer than 500 rows, is followed by
another query. -/
theorem C10_empty_page_signal (K : WechatConsts) (S : System)
    (provider : WechatDataProvider) (userName outputPath : String) (fuel : Nat) (r : Run)
    (i : Nat) (c : Int) (page : WeChatMessageList)
    (hrun : exportToTxt K S provider userName outputPath fuel = some r)
    (hpages : ∀ q ∈ queryLog r.trace, ∃ p, q.2 = Fallible.ok p ∧ p.Total = p.Rows.length)
    (hq : (queryLog r.trace)[i]? = some (c, Fallible.ok page)) :
    (i + 1 = (queryLog r.trace).length ↔ page.Rows = []) ∧
    (page.Rows ≠ [] → ∃ q, (queryLog r.trace)[i + 1]? = some q) := by
  have hiff : i + 1 = (queryLog r.trace).length ↔ page.Rows = [] := by
    rcases exportToTxt_cases hrun with ⟨e0, _, hr⟩ | ⟨userInfo, e0, _, _, hr⟩ |
      ⟨userInfo, events, exit, _, _, hloop, htrace, hout⟩
    · rw [hr] at hq; simp [queryLog] at hq
    · rw [hr] at hq; simp [queryLog] at hq
    · have hlog : queryLog r.trace = queryLog events := by
        rw [htrace, queryLog_run]; rfl
      rw [hlog] at hq hpages ⊢
      exact exportLoop_last_iff_empty hloop hpages hq
  refine ⟨hiff, ?_⟩
  intro hne
  have hlt : i < (queryLog r.trace).length := by
    rcases List.getElem?_eq_some.mp hq with ⟨h, _⟩
    exact h
  have hne' : i + 1 ≠ (queryLog r.trace).length := fun h => hne (hiff.mp h)
  have hlt' : i + 1 < (queryLog r.trace).length := by omega
  exact ⟨(queryLog r.trace)[i + 1], List.getElem?_eq_getElem hlt'⟩

theorem queryLog_threeMessageExport :
    queryLog (runOf threeMessageExport).trace =
      [(1000, Fallible.ok ⟨3, everySecond 3⟩), (0, Fallible.ok ⟨0, []⟩)] := by
  decide

/-- C10 at the export of three messages: the page of three rows (fewer than 500) is not
the last query, a second query follows it. -/
theorem C10_empty_page_signal_witness :
    (0 + 1 = (queryLog (runOf threeMessageExport).trace).length ↔ everySecond 3 = []) ∧
    (everySecond 3 ≠ [] → ∃ q, (queryLog (runOf threeMessageExport).trace)[0 + 1]? = some q) :=
  C10_empty_page_signal sampleConsts (sampleSystem 1000)
    (storeProvider default (sampleUser "u" "N") (everySecond 3)) "u" "out" 5
    (runOf threeMessageExport) 0 1000 ⟨3, everySecond 3⟩ (by decide)
    (by
      rw [queryLog_threeMessageExport]
      intro q hq
      simp only [List.mem_cons, List.mem_singleton, List.not_mem_nil, or_false] at hq
      rcases hq with rfl | rfl
      · exact ⟨_, rfl, by decide⟩
      · exact ⟨_, rfl, by decide⟩)
    (by decide)

/-! ## Termination -/

/-- The messages of a history that are older than a cursor. -/
theorem length_older_lt (history : List WeChatMessage) (c c' : Int) (last : WeChatMessage)
    (hmem : last ∈ history) (hlast : last.CreateTime < c) (hle' : c' ≤ last.CreateTime) :
    (history.filter (fun m => decide (m.CreateTime < c'))).length <
      (history.filter (fun m => decide (m.CreateTime < c))).length := by
  have hsub : history.filter (fun m => decide (m.CreateTime < c')) =
      (history.filter (fun m => decide (m.CreateTime < c))).filter
        (fun m => decide (m.CreateTime < c')) := by
    rw [List.filter_filter]
    congr 1
    funext m
    by_cases h : m.CreateTime < c'
    · have : m.CreateTime < c := by omega
      simp [h, this]
    · simp [h]
  rw [hsub]
  apply List.length_filter_lt_length_iff_exists.mpr
  refine ⟨last, ?_, ?_⟩
  · simp [hmem, hlast]
  · simp only [decide_eq_true_eq, not_lt]
    exact hle'

theorem exportLoop_terminates (K : WechatConsts) (S : System)
    (provider : WechatDataProvider) (userName : String) (history : List WeChatMessage)
    (hrange : ∀ m ∈ history, minInt64 < m.CreateTime ∧ m.CreateTime ≤ maxInt64)
    (hprov : ∀ n c page, askPage provider userName n c = Fallible.ok page →
      ∀ m ∈ page.Rows, m ∈ history ∧ m.CreateTime < c) :
    ∀ (fuel queryNo : Nat) (currentTime : Int) (totalMessages : Nat),
      (history.filter (fun m => decide (m.CreateTime < currentTime))).length < fuel →
      ∃ events exit,
        exportLoop K S provider userName fuel queryNo currentTime totalMessages =
          some (events, exit) ∧
        (queryLog events).length ≤
          (history.filter (fun m => decide (m.CreateTime < currentTime))).length + 1 := by
  intro fuel
  induction fuel with
  | zero => intro _ _ _ h; omega
  | succ fuel ih =>
    intro queryNo currentTime totalMessages hfuel
    simp only [exportLoop]
    cases ha : askPage provider userName queryNo currentTime with
    | err e =>
      refine ⟨_, _, rfl, ?_⟩
      simp [queryLog, queryEvent]
    | ok page =>
      simp only
      by_cases h0 : page.Total = 0
      · rw [if_pos h0]
        refine ⟨_, _, rfl, ?_⟩
        simp [queryLog, queryEvent]
      · rw [if_neg h0]
        cases hi : indexRows page.Rows (page.Total - 1) with
        | none =>
          refine ⟨_, _, rfl, ?_⟩
          rw [queryLog_queryEvent_cons, queryLog_pageEvents]
          simp
        | some last =>
          simp only
          obtain ⟨hmem, hlt⟩ := hprov queryNo currentTime page ha last (indexRows_mem hi)
          obtain ⟨hlo, hhi⟩ := hrange last hmem
          have hw := wrapInt64_pred last.CreateTime hlo hhi
          have hdec := length_older_lt history currentTime (last.CreateTime - 1) last hmem hlt
            (by omega)
          obtain ⟨rest, exit, hrest, hlen⟩ := ih (queryNo + 1) (wrapInt64 (last.CreateTime - 1))
            (totalMessages + page.Rows.length) (by rw [hw]; omega)
          rw [hrest]
          refine ⟨_, _, rfl, ?_⟩
          rw [queryLog_append, queryLog_queryEvent_cons, queryLog_pageEvents]
          rw [hw] at hlen
          simp only [List.singleton_append, List.length_cons]
          omega

/-- The store holding one message whose `CreateTime` is the least `int64`. -/
theorem exportLoop_minInt64_diverges (fuel : Nat) :
    ∀ (queryNo : Nat) (currentTime : Int) (totalMessages : Nat), minInt64 < currentTime →
      exportLoop sampleConsts (sampleSystem 1000)
        (storeProvider default (sampleUser "u" "N") [textMessage minInt64 "u" "x"]) "u"
        fuel queryNo currentTime totalMessages = none := by
  induction fuel with
  | zero => intro _ _ _ _; rfl
  | succ fuel ih =>
    intro queryNo currentTime totalMessages hc
    have ha : askPage (storeProvider default (sampleUser "u" "N")
        [textMessage minInt64 "u" "x"]) "u" queryNo currentTime =
        Fallible.ok ⟨1, [textMessage minInt64 "u" "x"]⟩ := by
      have hm : (textMessage minInt64 "u" "x").CreateTime < currentTime := hc
      simp [askPage, storeProvider, storeQuery, newestFirst, sampleUser, hm, pageSize]
    have hnext := ih (queryNo + 1) maxInt64 (totalMessages + 1) (by decide)
    simp only [exportLoop, ha]
    have hi : indexRows [textMessage minInt64 "u" "x"] 0 =
        some (textMessage minInt64 "u" "x") := by decide
    have hw : wrapInt64 ((textMessage minInt64 "u" "x").CreateTime - 1) = maxInt64 := by
      decide
    simp [hi, hw, hnext]

theorem mem_newestFirst {conversation : List WeChatMessage} {m : WeChatMessage} :
    m ∈ newestFirst conversation ↔ m ∈ conversation :=
  (List.perm_insertionSort newerOrEqual conversation).mem_iff

theorem storeQuery_rows {conversation : List WeChatMessage} {time size : Int}
    {m : WeChatMessage} (h : m ∈ (storeQuery conversation time size).Rows) :
    m ∈ conversation ∧ m.CreateTime < time := by
  have h' := List.mem_of_mem_take h
  rw [List.mem_filter] at h'
  exact ⟨mem_newestFirst.mp h'.1, by simpa using h'.2⟩

theorem storeProvider_pages (self info : WeChatUserInfo) (conversation : List WeChatMessage)
    (n : Nat) (c : Int) (page : WeChatMessageList)
    (h : askPage (storeProvider self info conversation) info.UserName n c = Fallible.ok page) :
    ∀ m ∈ page.Rows, m ∈ conversation ∧ m.CreateTime < c := by
  simp only [askPage, storeProvider, if_true, Fallible.ok.injEq] at h
  subst h
  intro m hm
  exact storeQuery_rows hm

/-- C3, as stated, fails: for the history of one message whose `CreateTime` is the least
`int64`, served by the store (only messages older than the cursor), `CreateTime - 1` wraps
to the greatest `int64`, the same page is returned again, and no number of iterations
ends the loop. -/
theorem C3_termination_counterexample :
    ¬ ∃ fuel r, exportToTxt sampleConsts (sampleSystem 1000)
      (storeProvider default (sampleUser "u" "N") [textMessage minInt64 "u" "x"])
      "u" "out" fuel = some r := by
  rintro ⟨fuel, r, h⟩
  have hloop := exportLoop_minInt64_diverges fuel 0 1000 0 (by decide)
  have hu : (storeProvider default (sampleUser "u" "N")
      [textMessage minInt64 "u" "x"]).WechatGetUserInfoByNameOnCache "u" =
      Fallible.ok (sampleUser "u" "N") := by decide
  have hc : (sampleSystem 1000).osCreate (exportPath (sampleSystem 1000) "u" "out") = none :=
    rfl
  have hn : (sampleSystem 1000).now 2 = 1000 := rfl
  simp only [exportToTxt, hu, hc, hn, hloop] at h
  exact Option.noConfusion h

/-- C3, amended. For every finite message history of N messages whose `CreateTime`s are
`int64` values above the least one, with a provider whose pages contain only messages of
the history older than the cursor, `exportToTxt` terminates within any loop bound of at
least N + 1 iterations, having issued at most N + 1 page queries (whatever the sizes of
the pages, one message per page included). -/
theorem C3_termination (K : WechatConsts) (S : System) (provider : WechatDataProvider)
    (userName outputPath : String) (history : List WeChatMessage) (fuel : Nat)
    (hrange : ∀ m ∈ history, minInt64 < m.CreateTime ∧ m.CreateTime ≤ maxInt64)
    (hprov : ∀ n c page, askPage provider userName n c = Fallible.ok page →
      ∀ m ∈ page.Rows, m ∈ history ∧ m.CreateTime < c)
    (hfuel : history.length + 1 ≤ fuel) :
    ∃ r, exportToTxt K S provider userName outputPath fuel = some r ∧
      (queryLog r.trace).length ≤ history.length + 1 := by
  simp only [exportToTxt]
  cases provider.WechatGetUserInfoByNameOnCache userName with
  | err e => exact ⟨_, rfl, by simp [queryLog]⟩
  | ok userInfo =>
    simp only
    cases S.osCreate (exportPath S userName outputPath) with
    | some e => exact ⟨_, rfl, by simp [queryLog]⟩
    | none =>
      simp only
      have hle : (history.filter (fun m => decide (m.CreateTime < S.now 2))).length ≤
          history.length := List.length_filter_le _ _
      obtain ⟨events, exit, hloop, hlen⟩ := exportLoop_terminates K S provider userName
        history hrange hprov fuel 0 (S.now 2) 0 (by omega)
      rw [hloop]
      cases exit with
      | finished n =>
        refine ⟨_, rfl, ?_⟩
        simp only [queryLog_append]
        simp only [queryLog, List.nil_append, List.append_nil]
        omega
      | indexOutOfRange =>
        refine ⟨_, rfl, ?_⟩
        simp only [queryLog_append]
        simp only [queryLog, List.nil_append, List.append_nil]
        omega

/-- C3 at the store holding three messages: the export ends within 4 iterations. -/
theorem C3_termination_witness :
    ∃ r, exportToTxt sampleConsts (sampleSystem 1000)
        (storeProvider default (sampleUser "u" "N") (everySecond 3)) "u" "out" 4 = some r ∧
      (queryLog r.trace).length ≤ (everySecond 3).length + 1 :=
  C3_termination sampleConsts (sampleSystem 1000)
    (storeProvider default (sampleUser "u" "N") (everySecond 3)) "u" "out" (everySecond 3) 4
    (by decide)
    (storeProvider_pages default (sampleUser "u" "N") (everySecond 3))
    (by decide)

/-! ## Completeness over the message store -/

theorem indexRows_length_pred (rows : List WeChatMessage) :
    indexRows rows ((rows.length : Int) - 1) = rows.getLast? := by
  cases hrows : rows with
  | nil => rfl
  | cons a l =>
    have h0 : (0 : Int) ≤ (((a :: l).length : Nat) : Int) - 1 := by
      simp only [List.length_cons]; omega
    have ht : ((((a :: l).length : Nat) : Int) - 1).toNat = (a :: l).length - 1 := by
      simp only [List.length_cons]; omega
    rw [indexRows, if_pos h0, ht, List.getLast?_eq_getElem?, List.get?_eq_getElem?]

theorem sorted_newestFirst (conversation : List WeChatMessage) :
    (newestFirst conversation).Pairwise (fun a b => b.CreateTime ≤ a.CreateTime) := by
  haveI : IsTotal WeChatMessage newerOrEqual :=
    ⟨fun a b => by unfold newerOrEqual; omega⟩
  haveI : IsTrans WeChatMessage newerOrEqual :=
    ⟨fun a b c hab hbc => by unfold newerOrEqual at *; omega⟩
  exact List.sorted_insertionSort newerOrEqual conversation

theorem length_newestFirst (conversation : List WeChatMessage) :
    (newestFirst conversation).length = conversation.length :=
  List.length_insertionSort newerOrEqual conversation

/-- In a list sorted newest first, the messages older than the cursor set after a page are
exactly those behind the page, provided the first message behind the page is at least two
seconds older than the last row of the page. -/
theorem filter_older_eq_drop (L : List WeChatMessage)
    (hs : L.Pairwise (fun a b => b.CreateTime ≤ a.CreateTime)) (n p : Nat)
    (last : WeChatMessage) (hlast : ((L.drop n).take p).getLast? = some last)
    (hgap : ∀ b, (L.drop (n + p)).head? = some b → b.CreateTime + 2 ≤ last.CreateTime) :
    L.filter (fun m => decide (m.CreateTime < last.CreateTime - 1)) = L.drop (n + p) := by
  have hsplit : L.take (n + p) ++ L.drop (n + p) = L := List.take_append_drop _ _
  have hA : (L.take (n + p)).getLast? = some last := by
    rw [List.take_add, List.getLast?_append, hlast]
    rfl
  have hs' := hs
  rw [← hsplit, List.pairwise_append] at hs'
  obtain ⟨pA, pB, _⟩ := hs'
  have hAall : ∀ a ∈ L.take (n + p), last.CreateTime ≤ a.CreateTime := by
    have hd : (L.take (n + p)).dropLast ++ [last] = L.take (n + p) :=
      List.dropLast_append_getLast? last hA
    intro a ha
    rw [← hd] at ha pA
    rw [List.pairwise_append] at pA
    rcases List.mem_append.mp ha with h | h
    · exact pA.2.2 a h last (List.mem_singleton_self _)
    · rw [List.mem_singleton.mp h]
  have hBall : ∀ b ∈ L.drop (n + p), b.CreateTime < last.CreateTime - 1 := by
    intro b hb
    cases hB : L.drop (n + p) with
    | nil => rw [hB] at hb; simp at hb
    | cons b0 B =>
      rw [hB] at hb pB
      have h0 := hgap b0 (by rw [hB]; rfl)
      rcases List.mem_cons.mp hb with h | h
      · rw [h]; omega
      · have := (List.pairwise_cons.mp pB).1 b h
        omega
  have hfA : (L.take (n + p)).filter (fun m => decide (m.CreateTime < last.CreateTime - 1)) =
      [] := by
    rw [List.filter_eq_nil_iff]
    intro a ha
    have := hAall a ha
    simp only [decide_eq_true_eq, not_lt]
    omega
  have hfB : (L.drop (n + p)).filter (fun m => decide (m.CreateTime < last.CreateTime - 1)) =
      L.drop (n + p) := by
    rw [List.filter_eq_self]
    intro b hb
    simpa using hBall b hb
  calc L.filter (fun m => decide (m.CreateTime < last.CreateTime - 1))
      = (L.take (n + p) ++ L.drop (n + p)).filter
          (fun m => decide (m.CreateTime < last.CreateTime - 1)) := by rw [hsplit]
    _ = L.drop (n + p) := by rw [List.filter_append, hfA, hfB, List.nil_append]

theorem askPage_storeProvider (self info : WeChatUserInfo)
    (conversation : List WeChatMessage) (n : Nat) (c : Int) :
    askPage (storeProvider self info conversation) info.UserName n c =
      Fallible.ok (storeQuery conversation c pageSize) := by
  simp [askPage, storeProvider]

theorem exportLoop_store (K : WechatConsts) (S : System) (provider : WechatDataProvider)
    (userName : String) (conversation : List WeChatMessage)
    (hask : ∀ n c, askPage provider userName n c =
      Fallible.ok (storeQuery conversation c pageSize))
    (hrange : ∀ m ∈ conversation, minInt64 < m.CreateTime ∧ m.CreateTime ≤ maxInt64)
    (hgap : ∀ k a b, ((newestFirst conversation).take (500 * k)).getLast? = some a →
      ((newestFirst conversation).drop (500 * k)).head? = some b →
      b.CreateTime + 2 ≤ a.CreateTime) :
    ∀ (fuel j queryNo : Nat) (currentTime : Int) (totalMessages : Nat),
      (newestFirst conversation).filter (fun m => decide (m.CreateTime < currentTime)) =
        (newestFirst conversation).drop (500 * j) →
      ((newestFirst conversation).drop (500 * j)).length < fuel →
      ∃ events,
        exportLoop K S provider userName fuel queryNo
          currentTime totalMessages =
          some (events, LoopExit.finished
            (totalMessages + ((newestFirst conversation).drop (500 * j)).length)) ∧
        writeLog events = ((newestFirst conversation).drop (500 * j)).map
          (fun m => formatMessageToText K S.timeFormat m provider.SelfInfo.UserName ++ "\n") := by
  intro fuel
  induction fuel with
  | zero => intro _ _ _ _ _ h; omega
  | succ fuel ih =>
    intro j queryNo currentTime totalMessages hinv hfuel
    have hrows : (storeQuery conversation currentTime pageSize).Rows =
        ((newestFirst conversation).drop (500 * j)).take 500 := by
      simp only [storeQuery, hinv]
      rfl
    have htotal : (storeQuery conversation currentTime pageSize).Total =
        (((storeQuery conversation currentTime pageSize).Rows.length : Nat) : Int) := rfl
    simp only [exportLoop, hask]
    cases hR : (newestFirst conversation).drop (500 * j) with
    | nil =>
      have h0 : (storeQuery conversation currentTime pageSize).Total = 0 := by
        rw [htotal, hrows, hR]; rfl
      rw [if_pos h0]
      exact ⟨_, rfl, rfl⟩
    | cons x R =>
      have hne : (storeQuery conversation currentTime pageSize).Rows ≠ [] := by
        rw [hrows, hR]; simp
      have h0 : (storeQuery conversation currentTime pageSize).Total ≠ 0 := by
        rw [htotal]
        intro h
        exact hne (List.length_eq_zero.mp (by exact_mod_cast h))
      rw [if_neg h0]
      obtain ⟨last, hlast⟩ : ∃ last,
          (storeQuery conversation currentTime pageSize).Rows.getLast? = some last := by
        cases hg : (storeQuery conversation currentTime pageSize).Rows.getLast? with
        | none => exact absurd (List.getLast?_eq_none_iff.mp hg) hne
        | some last => exact ⟨last, rfl⟩
      have hi : indexRows (storeQuery conversation currentTime pageSize).Rows
          ((storeQuery conversation currentTime pageSize).Total - 1) = some last := by
        rw [htotal, indexRows_length_pred, hlast]
      rw [hi]
      simp only
      have hmem : last ∈ conversation := by
        have h1 : last ∈ (storeQuery conversation currentTime pageSize).Rows :=
          List.mem_of_getLast?_eq_some hlast
        exact (storeQuery_rows h1).1
      obtain ⟨hlo, hhi⟩ := hrange last hmem
      rw [wrapInt64_pred _ hlo hhi]
      have hlast' : (((newestFirst conversation).drop (500 * j)).take 500).getLast? =
          some last := by rw [← hrows]; exact hlast
      have htake : ((newestFirst conversation).take (500 * (j + 1))).getLast? = some last := by
        rw [Nat.mul_add, Nat.mul_one, List.take_add, List.getLast?_append, hlast']
        rfl
      have hinv' := filter_older_eq_drop (newestFirst conversation)
        (sorted_newestFirst conversation) (500 * j) 500 last hlast'
        (fun b hb => hgap (j + 1) last b htake (by rw [Nat.mul_add, Nat.mul_one]; exact hb))
      have hlenR : ((newestFirst conversation).drop (500 * (j + 1))).length <
          ((newestFirst conversation).drop (500 * j)).length := by
        have : 0 < ((newestFirst conversation).drop (500 * j)).length := by
          rw [hR]; simp
        simp only [List.length_drop] at this ⊢
        omega
      obtain ⟨rest, hrest, hwrite⟩ := ih (j + 1) (queryNo + 1) (last.CreateTime - 1)
        (totalMessages + (storeQuery conversation currentTime pageSize).Rows.length)
        (by rw [Nat.mul_add, Nat.mul_one]; exact hinv') (by omega)
      rw [hrest]
      have hsum : (storeQuery conversation currentTime pageSize).Rows.length +
          ((newestFirst conversation).drop (500 * (j + 1))).length = (x :: R).length := by
        rw [hrows, ← hR, Nat.mul_add, Nat.mul_one, ← List.drop_drop, ← List.length_append,
          List.take_append_drop]
      refine ⟨queryEvent provider userName queryNo currentTime ::
        pageEvents K S provider totalMessages
          (storeQuery conversation currentTime pageSize).Rows ++ rest, ?_, ?_⟩
      · simp only
        rw [Nat.add_assoc, hsum]
      · rw [writeLog_append]
        have hq : ∀ ev, writeLog (queryEvent provider userName queryNo currentTime :: ev) =
            writeLog ev := fun _ => rfl
        rw [hq, writeLog_pageEvents, hwrite, hrows, ← List.map_append, ← hR,
          Nat.mul_add, Nat.mul_one, ← List.drop_drop, List.take_append_drop]

/-- Completeness over a store that answers newest first: for a conversation of N messages
whose `CreateTime`s are `int64` values above the least one and older than the starting
cursor, and in which, counted newest first, the first message behind every block of 500
is at least two seconds older than the last message of the block, `exportToTxt` writes
the header, one line for each of the N messages, newest first, and the footer, and returns
with the count N. -/
theorem exportToTxt_complete_of_gaps (K : WechatConsts) (S : System) (provider : WechatDataProvider)
    (userName : String) (info : WeChatUserInfo) (conversation : List WeChatMessage)
    (outputPath : String) (fuel : Nat)
    (hlookup : provider.WechatGetUserInfoByNameOnCache userName = Fallible.ok info)
    (hask : ∀ n c, askPage provider userName n c =
      Fallible.ok (storeQuery conversation c pageSize))
    (hrange : ∀ m ∈ conversation, minInt64 < m.CreateTime ∧ m.CreateTime ≤ maxInt64)
    (hold : ∀ m ∈ conversation, m.CreateTime < S.now 2)
    (hgap : ∀ k a b, ((newestFirst conversation).take (500 * k)).getLast? = some a →
      ((newestFirst conversation).drop (500 * k)).head? = some b →
      b.CreateTime + 2 ≤ a.CreateTime)
    (hcreate : S.osCreate (exportPath S userName outputPath) = none)
    (hfuel : conversation.length + 1 ≤ fuel) :
    ∃ r lines,
      exportToTxt K S provider userName outputPath fuel = some r ∧
      writeLog r.trace = exportHeader S info :: lines ++ [exportFooter conversation.length] ∧
      lines = (newestFirst conversation).map
        (fun m => formatMessageToText K S.timeFormat m provider.SelfInfo.UserName ++ "\n") ∧
      lines.length = conversation.length ∧
      r.outcome = Outcome.returned
        (exportSuccess (exportPath S userName outputPath) conversation.length) := by
  have hinv : (newestFirst conversation).filter (fun m => decide (m.CreateTime < S.now 2)) =
      (newestFirst conversation).drop (500 * 0) := by
    rw [Nat.mul_zero, List.drop_zero, List.filter_eq_self]
    intro m hm
    simpa using hold m (mem_newestFirst.mp hm)
  obtain ⟨events, hloop, hwrite⟩ := exportLoop_store K S provider userName conversation hask
    hrange hgap fuel 0 0 (S.now 2) 0 hinv
    (by rw [Nat.mul_zero, List.drop_zero, length_newestFirst]; omega)
  rw [Nat.mul_zero, List.drop_zero] at hwrite
  rw [Nat.mul_zero, List.drop_zero, length_newestFirst, Nat.zero_add] at hloop
  have hrun : exportToTxt K S provider userName outputPath fuel =
      some ⟨[Event.lookup userName,
          Event.create (exportPath S userName outputPath) none,
          Event.write (exportHeader S info) (S.WriteString 0 (exportHeader S info)),
          Event.stdout ("正在导出 " ++ info.NickName ++ " 的聊天记录...\n")] ++ events ++
        [Event.write (exportFooter conversation.length)
          (S.WriteString (conversation.length + 1) (exportFooter conversation.length)),
          Event.close],
      Outcome.returned
        (exportSuccess (exportPath S userName outputPath) conversation.length)⟩ := by
    simp only [exportToTxt, hlookup, hcreate, hloop]
  refine ⟨_, (newestFirst conversation).map
    (fun m => formatMessageToText K S.timeFormat m provider.SelfInfo.UserName ++ "\n"), hrun,
    ?_, rfl, ?_, rfl⟩
  · simp only [writeLog_append, hwrite]
    rfl
  · rw [List.length_map, length_newestFirst]

set_option maxRecDepth 1000000 in
set_option maxHeartbeats 4000000 in
theorem everyOtherSecond_blocks :
    (newestFirst (everyOtherSecond 501)).length = 501 ∧
    ((newestFirst (everyOtherSecond 501)).take 500).getLast? = some (textMessage 4 "u" "x") ∧
    ((newestFirst (everyOtherSecond 501)).drop 500).head? = some (textMessage 2 "u" "x") := by
  decide

set_option maxRecDepth 1000000 in
set_option maxHeartbeats 4000000 in
/-- A conversation of 501 messages two seconds apart, served by the store, is exported in
two pages, with 501 lines and the count 501. -/
theorem exportToTxt_complete_of_gaps_example :
    ∃ r lines,
      exportToTxt sampleConsts (sampleSystem 2000)
        (storeProvider default (sampleUser "u" "N") (everyOtherSecond 501))
        (sampleUser "u" "N").UserName "out" 502 = some r ∧
      writeLog r.trace = exportHeader (sampleSystem 2000) (sampleUser "u" "N") :: lines ++
        [exportFooter (everyOtherSecond 501).length] ∧
      lines = (newestFirst (everyOtherSecond 501)).map
        (fun m => formatMessageToText sampleConsts (sampleSystem 2000).timeFormat m
          (storeProvider default (sampleUser "u" "N")
            (everyOtherSecond 501)).SelfInfo.UserName ++ "\n") ∧
      lines.length = (everyOtherSecond 501).length ∧
      r.outcome = Outcome.returned
        (exportSuccess (exportPath (sampleSystem 2000) (sampleUser "u" "N").UserName "out")
          (everyOtherSecond 501).length) :=
  exportToTxt_complete_of_gaps sampleConsts (sampleSystem 2000)
    (storeProvider default (sampleUser "u" "N") (everyOtherSecond 501))
    (sampleUser "u" "N").UserName (sampleUser "u" "N") (everyOtherSecond 501) "out" 502
    (by decide)
    (askPage_storeProvider default (sampleUser "u" "N") (everyOtherSecond 501))
    (by decide) (by decide)
    (by
      intro k a b ha hb
      obtain ⟨hlen, htake, hdrop⟩ := everyOtherSecond_blocks
      rcases k with _ | _ | k
      · simp at ha
      · rw [Nat.mul_one, htake] at ha
        rw [Nat.mul_one, hdrop] at hb
        simp only [Option.some.injEq] at ha hb
        subst ha hb
        decide
      · have hnil : (newestFirst (everyOtherSecond 501)).drop (500 * (k + 1 + 1)) = [] :=
          List.drop_eq_nil_of_le (by omega)
        rw [hnil] at hb
        simp at hb)
    rfl (by decide)

/-! ## Media rendering and line composition -/

theorem append_eq_left_iff (a b : String) : a ++ b = a ↔ b = "" := by
  constructor
  · intro h
    have hd := congrArg String.data h
    rw [String.data_append] at hd
    exact String.ext (List.append_right_eq_self.mp hd)
  · intro h
    rw [h]
    exact String.ext (by simp [String.data_append])

theorem mediaRendering_tag (tag path : String) :
    MediaRendering (tag ++ (if path ≠ "" then " (路径: " ++ path ++ ")" else "")) tag path := by
  by_cases h : path = ""
  · refine ⟨fun _ => ?_, fun hne => absurd h hne, ?_⟩
    · simp [h, append_eq_left_iff]
    · simp [h, append_eq_left_iff]
  · refine ⟨fun he => absurd he h, fun _ => by simp [h], ?_⟩
    simp only [ne_eq, h, not_false_eq_true, if_true, append_eq_left_iff, iff_false]
    exact append_ne_empty_of_left _ _ (append_ne_empty_of_left _ _ (by decide))

/-- C12. Media rendering: for a Picture, Voice, Video or Emoji message (the constants of
the `switch` being pairwise distinct, as the Go compiler demands of `case` constants) the
content of the line is the tag alone when the kind's own path is empty, the tag followed
by " (路径: <path>)" when it is not, and it is the tag alone only when the path is empty. -/
theorem C12_media_rendering (K : WechatConsts) (timeFormat : String → Int → String)
    (msg : WeChatMessage) (selfUserName : String) (hK : K.knownTypes.Nodup) :
    formatMessageToText K timeFormat msg selfUserName =
      composeLine (timeFormat layoutDateTime msg.CreateTime) (messageSender msg)
        (messageContent K msg) ∧
    (msg.Type_ = K.Wechat_Message_Type_Picture →
      MediaRendering (messageContent K msg) "[图片]" msg.ImagePath) ∧
    (msg.Type_ = K.Wechat_Message_Type_Voice →
      MediaRendering (messageContent K msg) "[语音]" msg.VoicePath) ∧
    (msg.Type_ = K.Wechat_Message_Type_Video →
      MediaRendering (messageContent K msg) "[视频]" msg.VideoPath) ∧
    (msg.Type_ = K.Wechat_Message_Type_Emoji →
      MediaRendering (messageContent K msg) "[表情]" msg.EmojiPath) := by
  simp only [WechatConsts.knownTypes, List.nodup_cons, List.mem_cons, List.mem_singleton,
    not_or, List.not_mem_nil, or_false] at hK
  obtain ⟨⟨t1, t2, t3, t4, _⟩, ⟨p1, p2, p3, _⟩, ⟨v1, v2, _⟩, ⟨w1, _⟩, _⟩ := hK
  refine ⟨rfl, ?_, ?_, ?_, ?_⟩
  · intro h
    have hc : messageContent K msg =
        "[图片]" ++ (if msg.ImagePath ≠ "" then " (路径: " ++ msg.ImagePath ++ ")" else "") := by
      simp [messageContent, h, Ne.symm t1]
    rw [hc]
    exact mediaRendering_tag _ _
  · intro h
    have hc : messageContent K msg =
        "[语音]" ++ (if msg.VoicePath ≠ "" then " (路径: " ++ msg.VoicePath ++ ")" else "") := by
      simp [messageContent, h, Ne.symm t2, Ne.symm p1]
    rw [hc]
    exact mediaRendering_tag _ _
  · intro h
    have hc : messageContent K msg =
        "[视频]" ++ (if msg.VideoPath ≠ "" then " (路径: " ++ msg.VideoPath ++ ")" else "") := by
      simp [messageContent, h, Ne.symm t3, Ne.symm p2, Ne.symm v1]
    rw [hc]
    exact mediaRendering_tag _ _
  · intro h
    have hc : messageContent K msg =
        "[表情]" ++ (if msg.EmojiPath ≠ "" then " (路径: " ++ msg.EmojiPath ++ ")" else "") := by
      simp [messageContent, h, Ne.symm t4, Ne.symm p3, Ne.symm v2, Ne.symm w1]
    rw [hc]
    exact mediaRendering_tag _ _

/-- C12 at a Picture message without path and a Voice message with the path "a.mp3". -/
theorem C12_media_rendering_witness :
    messageContent sampleConsts { textMessage 5 "C" "" with Type_ := 3 } = "[图片]" ∧
    messageContent sampleConsts { textMessage 5 "C" "" with Type_ := 34, VoicePath := "a.mp3" }
      = "[语音] (路径: a.mp3)" :=
  ⟨((C12_media_rendering sampleConsts (sampleSystem 0).timeFormat
      { textMessage 5 "C" "" with Type_ := 3 } "me" (by decide)).2.1 (by decide)).1
      (by decide),
   (((C12_media_rendering sampleConsts (sampleSystem 0).timeFormat
      { textMessage 5 "C" "" with Type_ := 34, VoicePath := "a.mp3" } "me"
      (by decide)).2.2.1 (by decide)).2.1 (by decide)).trans (by decide)⟩

/-- C13. Line composition: the line of `formatMessageToText` is "[" ++ timestamp ++ "] " ++
sender ++ ": " ++ content, the timestamp being the rendering of `CreateTime` in the layout
"2006-01-02 15:04:05", the sender the label resolved from `IsSender` and the names, and
the content the one resolved by the dispatch on `Type` and `SubType`. -/
theorem C13_line_composition (K : WechatConsts) (timeFormat : String → Int → String)
    (msg : WeChatMessage) (selfUserName : String) :
    formatMessageToText K timeFormat msg selfUserName =
      "[" ++ timeFormat "2006-01-02 15:04:05" msg.CreateTime ++ "] " ++
        (if msg.IsSender = 1 then "我"
         else if msg.UserInfo.ReMark ≠ "" then msg.UserInfo.ReMark
         else if msg.UserInfo.NickName ≠ "" then msg.UserInfo.NickName
         else msg.UserInfo.UserName) ++ ": " ++ messageContent K msg ∧
    formatMessageToText sampleConsts (sampleSystem 0).timeFormat (labelled "A" "B" "C") "me" =
      "[5] A: hi" := by
  refine ⟨?_, by decide⟩
  simp only [formatMessageToText, composeLine, messageSender, layoutDateTime]

/-- C18. Independence from the self identifier: the line does not depend on the second
argument of `formatMessageToText`; the label "我" is used when `IsSender` is exactly 1, and
for any other value (2, negative, ...) the label is resolved from the names of the
sender. -/
theorem C18_self_identifier_unused (K : WechatConsts) (timeFormat : String → Int → String)
    (msg : WeChatMessage) (s1 s2 : String) :
    formatMessageToText K timeFormat msg s1 = formatMessageToText K timeFormat msg s2 ∧
    (msg.IsSender = 1 → formatMessageToText K timeFormat msg s1 =
      composeLine (timeFormat layoutDateTime msg.CreateTime) "我" (messageContent K msg)) ∧
    (msg.IsSender ≠ 1 → formatMessageToText K timeFormat msg s1 =
      composeLine (timeFormat layoutDateTime msg.CreateTime)
        (if msg.UserInfo.ReMark ≠ "" then msg.UserInfo.ReMark
         else if msg.UserInfo.NickName ≠ "" then msg.UserInfo.NickName
         else msg.UserInfo.UserName) (messageContent K msg)) := by
  refine ⟨rfl, ?_, ?_⟩
  · intro h
    simp [formatMessageToText, messageSender, h]
  · intro h
    simp [formatMessageToText, messageSender, h]

/-- C18 at messages whose user name equals the self identifier passed: with `IsSender` 2
and -1 the names are used, with `IsSender` 1 the label "我". -/
theorem C18_self_identifier_unused_witness :
    formatMessageToText sampleConsts (sampleSystem 0).timeFormat
      { labelled "" "" "me" with IsSender := 2 } "me" = "[5] me: hi" ∧
    formatMessageToText sampleConsts (sampleSystem 0).timeFormat
      { labelled "" "" "me" with IsSender := -1 } "me" = "[5] me: hi" ∧
    formatMessageToText sampleConsts (sampleSystem 0).timeFormat
      { labelled "A" "B" "C" with IsSender := 1 } "somebody else" = "[5] 我: hi" :=
  ⟨((C18_self_identifier_unused sampleConsts (sampleSystem 0).timeFormat
      { labelled "" "" "me" with IsSender := 2 } "me" "x").2.2 (by decide)).trans (by decide),
   ((C18_self_identifier_unused sampleConsts (sampleSystem 0).timeFormat
      { labelled "" "" "me" with IsSender := -1 } "me" "x").2.2 (by decide)).trans
      (by decide),
   ((C18_self_identifier_unused sampleConsts (sampleSystem 0).timeFormat
      { labelled "A" "B" "C" with IsSender := 1 } "somebody else" "x").2.1
      (by decide)).trans (by decide)⟩

/-! ## Transcript header -/

/-- C16. Transcript header: in every run that created the file, the first string written
is the header: the title line, the export-time line, "聊天对象: <NickName>" followed by
" (<ReMark>)" exactly when `ReMark` is non-empty, the line "聊天类型: 群聊" for a group and
"聊天类型: 单聊" otherwise, a line of 50 '=' characters and one blank line. -/
theorem C16_transcript_header (K : WechatConsts) (S : System)
    (provider : WechatDataProvider) (userName outputPath : String) (fuel : Nat) (r : Run)
    (userInfo : WeChatUserInfo)
    (hlookup : provider.WechatGetUserInfoByNameOnCache userName = Fallible.ok userInfo)
    (hcreate : S.osCreate (exportPath S userName outputPath) = none)
    (hrun : exportToTxt K S provider userName outputPath fuel = some r) :
    (∃ rest, writeLog r.trace = exportHeader S userInfo :: rest) ∧
    exportHeader S userInfo =
      "微信聊天记录导出" ++ "\n" ++
      "导出时间: " ++ S.timeFormat "2006-01-02 15:04:05" (S.now 1) ++ "\n" ++
      "聊天对象: " ++ userInfo.NickName ++
        (if userInfo.ReMark ≠ "" then " (" ++ userInfo.ReMark ++ ")" else "") ++ "\n" ++
      (if userInfo.IsGroup then "聊天类型: 群聊" else "聊天类型: 单聊") ++ "\n" ++
      String.mk (List.replicate 50 '=') ++ "\n" ++ "\n" := by
  constructor
  · rcases exportToTxt_cases hrun with ⟨e, hu, _⟩ | ⟨info, e, _, hc, _⟩ |
      ⟨info, events, exit, hu, _, _, htrace, _⟩
    · rw [hlookup] at hu; simp at hu
    · rw [hcreate] at hc; simp at hc
    · rw [hlookup] at hu
      simp only [Fallible.ok.injEq] at hu
      subst hu
      rw [htrace]
      exact ⟨_, rfl⟩
  · have e1 : ("微信聊天记录导出\n" : String) = "微信聊天记录导出" ++ "\n" := by decide
    have e2 : ("聊天类型: 群聊\n" : String) = "聊天类型: 群聊" ++ "\n" := by decide
    have e3 : ("聊天类型: 单聊\n" : String) = "聊天类型: 单聊" ++ "\n" := by decide
    have e4 : ("\n\n" : String) = "\n" ++ "\n" := by decide
    simp only [exportHeader, rule50, layoutDateTime, e1, e2, e3, e4]
    cases userInfo.IsGroup <;> simp only [String.append_assoc, Bool.false_eq_true, if_false,
      if_true]

set_option maxRecDepth 100000 in
/-- C16 at the export of a group conversation with a remark. -/
theorem C16_transcript_header_witness :
    (∃ rest, writeLog (runOf groupExport).trace =
      exportHeader (sampleSystem 1000)
        { UserName := "g", NickName := "N", ReMark := "R", IsGroup := true } :: rest) ∧
    exportHeader (sampleSystem 1000)
        { UserName := "g", NickName := "N", ReMark := "R", IsGroup := true } =
      "微信聊天记录导出\n导出时间: 1000\n聊天对象: N (R)\n聊天类型: 群聊\n" ++
        "==================================================\n\n" :=
  ⟨(C16_transcript_header sampleConsts (sampleSystem 1000)
      (storeProvider default { UserName := "g", NickName := "N", ReMark := "R", IsGroup := true }
        (everySecond 3)) "g" "out" 5 (runOf groupExport)
      { UserName := "g", NickName := "N", ReMark := "R", IsGroup := true }
      (by decide) rfl (by decide)).1,
   by decide⟩

/-! ## Index safety -/

theorem indexRows_out_of_range (rows : List WeChatMessage) (total : Int)
    (h : (rows.length : Int) < total ∨ total < 0) : indexRows rows (total - 1) = none := by
  unfold indexRows
  split_ifs with h0
  · rcases h with h | h
    · rw [List.get?_eq_none]
      omega
    · omega
  · rfl

theorem indexRows_in_range (rows : List WeChatMessage) (total : Int)
    (h : total = (rows.length : Int)) (h0 : total ≠ 0) :
    1 ≤ total ∧ ∃ last, indexRows rows (total - 1) = some last := by
  have hne : rows ≠ [] := by
    intro hnil
    apply h0
    rw [h, hnil]
    rfl
  have hpos : 0 < rows.length := List.length_pos.mpr hne
  refine ⟨by omega, ?_⟩
  rw [h]
  exact indexRows_last_isSome rows hne

/-- What the loop does with the pages of its query log: a page with `Total != 0` whose row
`Rows[Total-1]` is missing ends the loop by the panic, and only such a page does. -/
theorem exportLoop_exit_panic {K : WechatConsts} {S : System}
    {provider : WechatDataProvider} {userName : String} :
    ∀ {fuel queryNo : Nat} {currentTime : Int} {totalMessages : Nat} {events : List Event}
      {exit : LoopExit},
      exportLoop K S provider userName fuel queryNo currentTime totalMessages =
        some (events, exit) →
      (exit = LoopExit.indexOutOfRange ↔
        ∃ q ∈ queryLog events, ∃ p, q.2 = Fallible.ok p ∧ p.Total ≠ 0 ∧
          indexRows p.Rows (p.Total - 1) = none) := by
  intro fuel
  induction fuel with
  | zero => intro _ _ _ _ _ h; simp [exportLoop] at h
  | succ fuel ih =>
    intro queryNo currentTime totalMessages events exit h
    rcases exportLoop_cases h with ⟨e0, ha, hev, hex⟩ | ⟨page, ha, h0, hev, hex⟩ |
      ⟨page, ha, h0, hi, hev, hex⟩ | ⟨page, last, rest, ha, h0, hi, hrest, hev⟩
    · subst hev hex
      have hlog : queryLog [queryEvent provider userName queryNo currentTime,
          Event.log ("获取消息失败: " ++ e0 ++ "\n")] =
          [(currentTime, Fallible.err e0)] := by rw [← ha]; rfl
      rw [hlog]
      simp
    · subst hev hex
      have hlog : queryLog [queryEvent provider userName queryNo currentTime] =
          [(currentTime, Fallible.ok page)] := by rw [← ha]; rfl
      rw [hlog]
      simp only [false_iff, List.mem_singleton, not_exists, not_and, reduceCtorEq]
      rintro q rfl p hp hp0
      simp only [Fallible.ok.injEq] at hp
      subst hp
      exact absurd h0 hp0
    · subst hev hex
      rw [queryLog_queryEvent_cons, queryLog_pageEvents, ha]
      simp only [true_iff]
      exact ⟨_, List.mem_singleton_self _, page, rfl, h0, hi⟩
    · subst hev
      rw [queryLog_append, queryLog_queryEvent_cons, queryLog_pageEvents,
        List.singleton_append, ha, ih hrest]
      constructor
      · rintro ⟨q, hq, p, hp⟩
        exact ⟨q, List.mem_cons_of_mem _ hq, p, hp⟩
      · rintro ⟨q, hq, p, hp, hp0, hpi⟩
        rcases List.mem_cons.mp hq with rfl | hq
        · simp only [Fallible.ok.injEq] at hp
          subst hp
          rw [hi] at hpi
          simp at hpi
        · exact ⟨q, hq, p, hp, hp0, hpi⟩

/-- A run ends by the panic exactly when a page of its query log has `Total != 0` and no
row `Rows[Total-1]`. -/
theorem exportToTxt_panicked_iff {K : WechatConsts} {S : System}
    {provider : WechatDataProvider} {userName outputPath : String} {fuel : Nat} {r : Run}
    (hrun : exportToTxt K S provider userName outputPath fuel = some r) :
    r.outcome = Outcome.panicked ↔
      ∃ q ∈ queryLog r.trace, ∃ p, q.2 = Fallible.ok p ∧ p.Total ≠ 0 ∧
        indexRows p.Rows (p.Total - 1) = none := by
  rcases exportToTxt_cases hrun with ⟨e, _, hr⟩ | ⟨userInfo, e, _, _, hr⟩ |
    ⟨userInfo, events, exit, _, _, hloop, htrace, hout⟩
  · rw [hr]; simp [queryLog]
  · rw [hr]; simp [queryLog]
  · have hlog : queryLog r.trace = queryLog events := by
      rw [htrace, queryLog_run]; rfl
    rw [hlog, ← exportLoop_exit_panic hloop, hout]
    cases exit <;> simp

/-- C17. Index safety of the cursor advance: in a run in which every page returned has
`Total` equal to the number of its rows, the run does not end by the index panic, and
every page with `Total != 0` (the only ones for which `Rows[Total-1]` is evaluated) has
`Total >= 1` and a row `Rows[Total-1]`. Without the precondition, a page with `Total`
above the number of its rows, or with a negative `Total`, has no row `Rows[Total-1]`, and
the run that receives it ends by the panic. -/
theorem C17_index_safety (K : WechatConsts) (S : System) (provider : WechatDataProvider)
    (userName outputPath : String) (fuel : Nat) (r : Run)
    (hrun : exportToTxt K S provider userName outputPath fuel = some r) :
    ((∀ q ∈ queryLog r.trace, ∀ p, q.2 = Fallible.ok p → p.Total = (p.Rows.length : Int)) →
      r.outcome ≠ Outcome.panicked ∧
      ∀ q ∈ queryLog r.trace, ∀ p, q.2 = Fallible.ok p → p.Total ≠ 0 →
        1 ≤ p.Total ∧ ∃ last, indexRows p.Rows (p.Total - 1) = some last) ∧
    (∀ q ∈ queryLog r.trace, ∀ p, q.2 = Fallible.ok p →
      ((p.Rows.length : Int) < p.Total ∨ p.Total < 0) →
      indexRows p.Rows (p.Total - 1) = none ∧ r.outcome = Outcome.panicked) := by
  constructor
  · intro hpages
    have hsafe : ∀ q ∈ queryLog r.trace, ∀ p, q.2 = Fallible.ok p → p.Total ≠ 0 →
        1 ≤ p.Total ∧ ∃ last, indexRows p.Rows (p.Total - 1) = some last :=
      fun q hq p hp h0 => indexRows_in_range p.Rows p.Total (hpages q hq p hp) h0
    refine ⟨?_, hsafe⟩
    intro hpanic
    obtain ⟨q, hq, p, hp, h0, hi⟩ := (exportToTxt_panicked_iff hrun).mp hpanic
    obtain ⟨_, last, hlast⟩ := hsafe q hq p hp h0
    rw [hi] at hlast
    simp at hlast
  · intro q hq p hp hbad
    have hi := indexRows_out_of_range p.Rows p.Total hbad
    refine ⟨hi, (exportToTxt_panicked_iff hrun).mpr ⟨q, hq, p, hp, ?_, hi⟩⟩
    rcases hbad with h | h <;> omega

theorem queryLog_overstatedTotalExport :
    queryLog (runOf overstatedTotalExport).trace =
      [(1000, Fallible.ok ⟨2, [textMessage 300 "u" "c"]⟩)] := by
  decide

/-- C17 at the export of three messages (every `Total` is the number of rows: no panic)
and at the export that receives one row with `Total` 2 (panic). -/
theorem C17_index_safety_witness :
    (runOf threeMessageExport).outcome ≠ Outcome.panicked ∧
    (indexRows [textMessage 300 "u" "c"] (2 - 1) = none ∧
      (runOf overstatedTotalExport).outcome = Outcome.panicked) :=
  ⟨((C17_index_safety sampleConsts (sampleSystem 1000)
      (storeProvider default (sampleUser "u" "N") (everySecond 3)) "u" "out" 5
      (runOf threeMessageExport) (by decide)).1 (by
        rw [queryLog_threeMessageExport]
        intro q hq p hp
        simp only [List.mem_cons, List.mem_singleton, List.not_mem_nil, or_false] at hq
        rcases hq with rfl | rfl
        · simp only [Fallible.ok.injEq] at hp
          subst hp
          decide
        · simp only [Fallible.ok.injEq] at hp
          subst hp
          decide)).1,
   (C17_index_safety sampleConsts (sampleSystem 1000)
      (scriptedProvider (sampleUser "u" "N") [Fallible.ok ⟨2, [textMessage 300 "u" "c"]⟩])
      "u" "out" 5 (runOf overstatedTotalExport) (by decide)).2
      (1000, Fallible.ok ⟨2, [textMessage 300 "u" "c"]⟩)
      (by rw [queryLog_overstatedTotalExport]; exact List.mem_singleton_self _)
      ⟨2, [textMessage 300 "u" "c"]⟩ rfl (by decide)⟩

/-! ## Transcript body -/

theorem exportLoop_writeLog {K : WechatConsts} {S : System}
    {provider : WechatDataProvider} {userName : String} :
    ∀ {fuel queryNo : Nat} {currentTime : Int} {totalMessages : Nat} {events : List Event}
      {exit : LoopExit},
      exportLoop K S provider userName fuel queryNo currentTime totalMessages =
        some (events, exit) →
      writeLog events = (rowsWritten (queryLog events)).map
        (fun m => formatMessageToText K S.timeFormat m provider.SelfInfo.UserName ++ "\n") ∧
      ∀ n, exit = LoopExit.finished n →
        n = totalMessages + (rowsWritten (queryLog events)).length := by
  intro fuel
  induction fuel with
  | zero => intro _ _ _ _ _ h; simp [exportLoop] at h
  | succ fuel ih =>
    intro queryNo currentTime totalMessages events exit h
    rcases exportLoop_cases h with ⟨e0, ha, hev, hex⟩ | ⟨page, ha, h0, hev, hex⟩ |
      ⟨page, ha, h0, hi, hev, hex⟩ | ⟨page, last, rest, ha, h0, hi, hrest, hev⟩
    · subst hev hex
      have hlog : queryLog [queryEvent provider userName queryNo currentTime,
          Event.log ("获取消息失败: " ++ e0 ++ "\n")] =
          [(currentTime, Fallible.err e0)] := by rw [← ha]; rfl
      rw [hlog]
      refine ⟨rfl, ?_⟩
      intro n hn
      simp only [LoopExit.finished.injEq] at hn
      simp [rowsWritten, hn]
    · subst hev hex
      have hlog : queryLog [queryEvent provider userName queryNo currentTime] =
          [(currentTime, Fallible.ok page)] := by rw [← ha]; rfl
      rw [hlog]
      refine ⟨by simp [rowsWritten, h0, writeLog, queryEvent], ?_⟩
      intro n hn
      simp only [LoopExit.finished.injEq] at hn
      simp [rowsWritten, h0, hn]
    · subst hev hex
      rw [queryLog_queryEvent_cons, queryLog_pageEvents, ha]
      refine ⟨?_, fun n hn => by simp at hn⟩
      have hq : ∀ ev, writeLog (queryEvent provider userName queryNo currentTime :: ev) =
          writeLog ev := fun _ => rfl
      rw [hq, writeLog_pageEvents]
      simp [rowsWritten, h0]
    · subst hev
      obtain ⟨hw, hn⟩ := ih hrest
      rw [queryLog_append, queryLog_queryEvent_cons, queryLog_pageEvents,
        List.singleton_append, ha]
      have hq : ∀ ev, writeLog (queryEvent provider userName queryNo currentTime :: ev) =
          writeLog ev := fun _ => rfl
      refine ⟨?_, ?_⟩
      · rw [writeLog_append, hq, writeLog_pageEvents, hw]
        simp [rowsWritten, h0]
      · intro n hfin
        rw [hn n hfin]
        simp [rowsWritten, h0, Nat.add_assoc]

theorem rowsWritten_eq_allRows (log : List (Int × Fallible WeChatMessageList))
    (h : ∀ q ∈ log, ∀ p, q.2 = Fallible.ok p → p.Total = (p.Rows.length : Int)) :
    rowsWritten log = allRows log := by
  induction log with
  | nil => rfl
  | cons q log ih =>
    have ih' := ih (fun q' hq' => h q' (List.mem_cons_of_mem _ hq'))
    obtain ⟨c, a⟩ := q
    cases a with
    | err e => simpa [rowsWritten, allRows] using ih'
    | ok p =>
      have hp := h (c, Fallible.ok p) (List.mem_cons_self _ _) p rfl
      by_cases h0 : p.Total = 0
      · have : p.Rows = [] := by
          rw [h0] at hp
          exact List.length_eq_zero.mp (by exact_mod_cast hp.symm)
        simp [rowsWritten, allRows, h0, this, ih']
      · simp [rowsWritten, allRows, h0, ih']

/-- What a run that created the file writes: the header, one line for every row of a page
with `Total != 0`, and the footer with the number of those lines unless the run ends by
the index panic. -/
theorem writeLog_exportToTxt {K : WechatConsts} {S : System}
    {provider : WechatDataProvider} {userName outputPath : String} {fuel : Nat} {r : Run}
    {userInfo : WeChatUserInfo}
    (hlookup : provider.WechatGetUserInfoByNameOnCache userName = Fallible.ok userInfo)
    (hcreate : S.osCreate (exportPath S userName outputPath) = none)
    (hrun : exportToTxt K S provider userName outputPath fuel = some r) :
    ∃ lines tail, writeLog r.trace = exportHeader S userInfo :: lines ++ tail ∧
      lines = (rowsWritten (queryLog r.trace)).map
        (fun m => formatMessageToText K S.timeFormat m provider.SelfInfo.UserName ++ "\n") ∧
      ((r.outcome = Outcome.returned
            (exportSuccess (exportPath S userName outputPath) lines.length) ∧
          tail = [exportFooter lines.length]) ∨
        (r.outcome = Outcome.panicked ∧ tail = [])) := by
  rcases exportToTxt_cases hrun with ⟨e, hu, _⟩ | ⟨info, e, _, hc, _⟩ |
    ⟨info, events, exit, hu, _, hloop, htrace, hout⟩
  · rw [hlookup] at hu; simp at hu
  · rw [hcreate] at hc; simp at hc
  · rw [hlookup] at hu
    simp only [Fallible.ok.injEq] at hu
    subst hu
    have hlog : queryLog r.trace = queryLog events := by
      rw [htrace, queryLog_run]; rfl
    obtain ⟨hw, hn⟩ := exportLoop_writeLog hloop
    rw [hlog]
    cases exit with
    | finished n =>
      have hn' := hn n rfl
      rw [Nat.zero_add] at hn'
      refine ⟨_, [exportFooter n], ?_, rfl, Or.inl ⟨?_, ?_⟩⟩
      · rw [htrace]
        simp only [writeLog_append, hw]
        rfl
      · rw [hout, List.length_map, ← hn']
      · rw [List.length_map, ← hn']
    | indexOutOfRange =>
      refine ⟨_, [], ?_, rfl, Or.inr ⟨hout, rfl⟩⟩
      rw [htrace]
      simp only [writeLog_append, hw]
      rfl

set_option maxRecDepth 100000 in
/-- C14, as stated, fails: the row of a page with `Total` 0 is received and not written
(the transcript is the header and the footer with count 0); and a run that receives one
row with `Total` 2 ends by the panic with no footer after the line. -/
theorem C14_transcript_body_counterexample :
    (zeroTotalExport.map fun r => (allRows (queryLog r.trace), writeLog r.trace, r.outcome)) =
      some ([textMessage 300 "u" "c"],
        [exportHeader (sampleSystem 1000) (sampleUser "u" "N"),
          "\n==================================================\n导出完成，共导出 0 条消息\n"],
        Outcome.returned
          "\n✅ 导出成功！\n文件保存在: out/wechat_chat_u_1000.txt\n共导出 0 条消息") ∧
    (overstatedTotalExport.map fun r => (writeLog r.trace, r.outcome)) =
      some ([exportHeader (sampleSystem 1000) (sampleUser "u" "N"), "[300] u: c\n"],
        Outcome.panicked) := by
  decide

/-- C14, amended. In every run that created the file, the strings written after the
header are, in the order the pages were fetched and the rows returned, the line of
`formatMessageToText` with a newline for every row of a page with `Total != 0`; then, if
the run returns, the footer, whose count (also the count of the returned status) is the
number of those lines; a run that ends by the index panic writes no footer. When every
page has `Total` equal to the number of its rows, with or without a failed query, those
rows are all the rows received and the run returns with the footer. -/
theorem C14_transcript_body (K : WechatConsts) (S : System) (provider : WechatDataProvider)
    (userName outputPath : String) (fuel : Nat) (r : Run) (userInfo : WeChatUserInfo)
    (hlookup : provider.WechatGetUserInfoByNameOnCache userName = Fallible.ok userInfo)
    (hcreate : S.osCreate (exportPath S userName outputPath) = none)
    (hrun : exportToTxt K S provider userName outputPath fuel = some r) :
    (∃ lines tail, writeLog r.trace = exportHeader S userInfo :: lines ++ tail ∧
      lines = (rowsWritten (queryLog r.trace)).map
        (fun m => formatMessageToText K S.timeFormat m provider.SelfInfo.UserName ++ "\n") ∧
      ((r.outcome = Outcome.returned
            ("\n✅ 导出成功！\n文件保存在: " ++ exportPath S userName outputPath ++ "\n共导出 " ++
            toString lines.length ++ " 条消息") ∧
          tail = ["\n==================================================\n导出完成，共导出 " ++
            toString lines.length ++ " 条消息\n"]) ∨
        (r.outcome = Outcome.panicked ∧ tail = []))) ∧
    ((∀ q ∈ queryLog r.trace, ∀ p, q.2 = Fallible.ok p → p.Total = (p.Rows.length : Int)) →
      ∃ lines, writeLog r.trace = exportHeader S userInfo :: lines ++
          ["\n==================================================\n导出完成，共导出 " ++
            toString lines.length ++ " 条消息\n"] ∧
        lines = (allRows (queryLog r.trace)).map
          (fun m => formatMessageToText K S.timeFormat m provider.SelfInfo.UserName ++ "\n") ∧
        r.outcome = Outcome.returned
          ("\n✅ 导出成功！\n文件保存在: " ++ exportPath S userName outputPath ++ "\n共导出 " ++
            toString lines.length ++ " 条消息")) := by
  have hF : ∀ n : Nat, exportFooter n =
      "\n==================================================\n导出完成，共导出 " ++ toString n ++
        " 条消息\n" := by
    intro n
    have e1 : ("\n" ++ rule50 ++ "\n" : String) =
        "\n==================================================\n" := by decide
    have e2 : ("\n==================================================\n导出完成，共导出 " : String) =
        "\n==================================================\n" ++ "导出完成，共导出 " := by decide
    rw [exportFooter, e1, e2]
    simp only [String.append_assoc]
  have hS : ∀ (fullPath : String) (n : Nat), exportSuccess fullPath n =
      "\n✅ 导出成功！\n文件保存在: " ++ fullPath ++ "\n共导出 " ++ toString n ++ " 条消息" :=
    fun _ _ => rfl
  have hmain := writeLog_exportToTxt hlookup hcreate hrun
  simp only [hF, hS] at hmain
  refine ⟨hmain, ?_⟩
  intro hpages
  obtain ⟨lines, tail, hw, hl, hcase⟩ := hmain
  have hno : r.outcome ≠ Outcome.panicked := by
    intro hpanic
    obtain ⟨q, hq, p, hp, h0, hi⟩ := (exportToTxt_panicked_iff hrun).mp hpanic
    obtain ⟨_, last, hlast⟩ := indexRows_in_range p.Rows p.Total (hpages q hq p hp) h0
    rw [hi] at hlast
    simp at hlast
  rw [rowsWritten_eq_allRows _ hpages] at hl
  rcases hcase with ⟨hout, htail⟩ | ⟨hout, _⟩
  · exact ⟨lines, by rw [hw, htail], hl, hout⟩
  · exact absurd hout hno

/-- C14 at the export of three messages: three lines between header and footer, count 3. -/
theorem C14_transcript_body_witness :
    ∃ lines, writeLog (runOf threeMessageExport).trace =
        exportHeader (sampleSystem 1000) (sampleUser "u" "N") :: lines ++
          ["\n==================================================\n导出完成，共导出 " ++
            toString lines.length ++ " 条消息\n"] ∧
      lines = (allRows (queryLog (runOf threeMessageExport).trace)).map
        (fun m => formatMessageToText sampleConsts (sampleSystem 1000).timeFormat m
          (storeProvider default (sampleUser "u" "N")
            (everySecond 3)).SelfInfo.UserName ++ "\n") ∧
      (runOf threeMessageExport).outcome = Outcome.returned
        ("\n✅ 导出成功！\n文件保存在: " ++ exportPath (sampleSystem 1000) "u" "out" ++ "\n共导出 " ++
            toString lines.length ++ " 条消息") :=
  (C14_transcript_body sampleConsts (sampleSystem 1000)
    (storeProvider default (sampleUser "u" "N") (everySecond 3)) "u" "out" 5
    (runOf threeMessageExport) (sampleUser "u" "N") (by decide) rfl (by decide)).2
    (by
      rw [queryLog_threeMessageExport]
      intro q hq p hp
      simp only [List.mem_cons, List.mem_singleton, List.not_mem_nil, or_false] at hq
      rcases hq with rfl | rfl
      · simp only [Fallible.ok.injEq] at hp
        subst hp
        decide
      · simp only [Fallible.ok.injEq] at hp
        subst hp
        decide)

/-! ## No re-fetch -/

theorem mem_rowsWritten {log : List (Int × Fallible WeChatMessageList)} {m : WeChatMessage}
    (h : m ∈ rowsWritten log) : ∃ q ∈ log, ∃ p, q.2 = Fallible.ok p ∧ m ∈ p.Rows := by
  induction log with
  | nil => simp [rowsWritten] at h
  | cons q log ih =>
    obtain ⟨c, a⟩ := q
    cases a with
    | err e =>
      obtain ⟨q, hq, hp⟩ := ih (by simpa [rowsWritten] using h)
      exact ⟨q, List.mem_cons_of_mem _ hq, hp⟩
    | ok p =>
      simp only [rowsWritten, List.mem_append] at h
      rcases h with h | h
      · refine ⟨(c, Fallible.ok p), List.mem_cons_self _ _, p, rfl, ?_⟩
        split_ifs at h
        · simp at h
        · exact h
      · obtain ⟨q, hq, hp⟩ := ih h
        exact ⟨q, List.mem_cons_of_mem _ hq, hp⟩

/-- Every later cursor is below every earlier cursor and below every row of every earlier
page, when each page holds only messages older than its cursor and its row `Rows[Total-1]`
is its oldest, above the least `int64`. -/
theorem pairwise_cursor_below (log : List (Int × Fallible WeChatMessageList))
    (hchain : List.Chain' CursorStep log)
    (holder : ∀ q ∈ log, ∀ p, q.2 = Fallible.ok p → ∀ m ∈ p.Rows, m.CreateTime < q.1)
    (hlast : ∀ q ∈ log, ∀ p last, q.2 = Fallible.ok p →
      indexRows p.Rows (p.Total - 1) = some last →
      minInt64 < last.CreateTime ∧ last.CreateTime ≤ maxInt64 ∧
        ∀ m ∈ p.Rows, last.CreateTime ≤ m.CreateTime) :
    log.Pairwise (fun a b => b.1 < a.1 ∧
      ∀ pa, a.2 = Fallible.ok pa → ∀ m ∈ pa.Rows, b.1 < m.CreateTime) := by
  induction log with
  | nil => exact List.Pairwise.nil
  | cons a l ih =>
    rw [List.chain'_cons'] at hchain
    obtain ⟨hstep, hrest⟩ := hchain
    have ih' := ih hrest (fun q hq => holder q (List.mem_cons_of_mem _ hq))
      (fun q hq => hlast q (List.mem_cons_of_mem _ hq))
    refine List.pairwise_cons.mpr ⟨?_, ih'⟩
    cases l with
    | nil => intro b hb; simp at hb
    | cons y l' =>
      obtain ⟨page, last, ha, _, hi, hy⟩ := hstep y rfl
      obtain ⟨hlo, hhi, hmin⟩ := hlast a (List.mem_cons_self _ _) page last ha hi
      have hlt := holder a (List.mem_cons_self _ _) page ha last (indexRows_mem hi)
      rw [wrapInt64_pred _ hlo hhi] at hy
      have hay : y.1 < a.1 ∧
          ∀ pa, a.2 = Fallible.ok pa → ∀ m ∈ pa.Rows, y.1 < m.CreateTime := by
        refine ⟨by omega, ?_⟩
        intro pa hpa m hm
        rw [ha] at hpa
        simp only [Fallible.ok.injEq] at hpa
        subst hpa
        have := hmin m hm
        omega
      intro b hb
      rcases List.mem_cons.mp hb with rfl | hb'
      · exact hay
      · have hyb := (List.pairwise_cons.mp ih').1 b hb'
        refine ⟨by omega, ?_⟩
        intro pa hpa m hm
        have := hay.2 pa hpa m hm
        omega

theorem nodup_rowsWritten (log : List (Int × Fallible WeChatMessageList))
    (hp : log.Pairwise (fun a b => ∀ pa pb, a.2 = Fallible.ok pa → b.2 = Fallible.ok pb →
      ∀ m ∈ pa.Rows, m ∉ pb.Rows ∧ ∀ m' ∈ pb.Rows, m'.CreateTime < m.CreateTime))
    (hnd : ∀ q ∈ log, ∀ p, q.2 = Fallible.ok p → p.Rows.Nodup) :
    (rowsWritten log).Nodup := by
  induction log with
  | nil => exact List.nodup_nil
  | cons q log ih =>
    obtain ⟨hq, hrest⟩ := List.pairwise_cons.mp hp
    have ih' := ih hrest (fun q' hq' => hnd q' (List.mem_cons_of_mem _ hq'))
    obtain ⟨c, a⟩ := q
    cases a with
    | err e => simpa [rowsWritten] using ih'
    | ok p =>
      have hpn := hnd (c, Fallible.ok p) (List.mem_cons_self _ _) p rfl
      simp only [rowsWritten]
      rw [List.nodup_append]
      refine ⟨by split_ifs; exacts [List.nodup_nil, hpn], ih', ?_⟩
      intro m hm hm'
      have hmp : m ∈ p.Rows := by
        split_ifs at hm
        · simp at hm
        · exact hm
      obtain ⟨q', hq', pb, hpb, hmb⟩ := mem_rowsWritten hm'
      exact (hq q' hq' p pb rfl hpb m hmp).1 hmb

/-- C11, as stated, fails. A store that hands out its pages oldest first returns only
messages older than the cursor; after its page with times 100, 200 the cursor is 199, the
next query returns the message at time 100 again and it is written twice. A message at the
least `int64` is older than the wrapped cursor and is returned and written again. A page
that holds the same message (one identity) twice has it written twice. -/
theorem C11_no_refetch_counterexample :
    (oldestFirstExport.map fun r => (queryLog r.trace, (writeLog r.trace).drop 1)) =
      some ([(1000, Fallible.ok ⟨2, [textMessage 100 "u" "a", textMessage 200 "u" "b"]⟩),
          (199, Fallible.ok ⟨1, [textMessage 100 "u" "a"]⟩),
          (99, Fallible.ok ⟨0, []⟩)],
        ["[100] u: a\n", "[200] u: b\n", "[100] u: a\n", exportFooter 3]) ∧
    (wrappedCursorExport.map fun r => (queryLog r.trace, (writeLog r.trace).drop 1)) =
      some ([(1000, Fallible.ok ⟨1, [textMessage minInt64 "u" "x"]⟩),
          (maxInt64, Fallible.ok ⟨1, [textMessage minInt64 "u" "x"]⟩),
          (maxInt64, Fallible.ok ⟨0, []⟩)],
        ["[-9223372036854775808] u: x\n", "[-9223372036854775808] u: x\n", exportFooter 2]) ∧
    (repeatedRowExport.map fun r => (queryLog r.trace, (writeLog r.trace).drop 1)) =
      some ([(1000, Fallible.ok ⟨2, [{ textMessage 300 "u" "c" with Identity := 7 },
            { textMessage 300 "u" "c" with Identity := 7 }]⟩),
          (299, Fallible.ok ⟨0, []⟩)],
        ["[300] u: c\n", "[300] u: c\n", exportFooter 2]) := by
  refine ⟨by decide, by decide, by decide⟩

/-- C11, amended. In a run that created the file and in which every page holds only
messages older than the cursor passed and has its oldest row, above the least `int64`, in
`Rows[Total-1]`: for every query and every later query, no row of the first page (its
oldest included) is in the later page, whose rows are all strictly older; and when no
page holds a message twice, the rows written to the transcript (one line each, between
the header and the footer) are pairwise distinct. -/
theorem C11_no_refetch (K : WechatConsts) (S : System) (provider : WechatDataProvider)
    (userName outputPath : String) (fuel : Nat) (r : Run) (userInfo : WeChatUserInfo)
    (hlookup : provider.WechatGetUserInfoByNameOnCache userName = Fallible.ok userInfo)
    (hcreate : S.osCreate (exportPath S userName outputPath) = none)
    (hrun : exportToTxt K S provider userName outputPath fuel = some r)
    (holder : ∀ q ∈ queryLog r.trace, ∀ p, q.2 = Fallible.ok p →
      ∀ m ∈ p.Rows, m.CreateTime < q.1)
    (hlast : ∀ q ∈ queryLog r.trace, ∀ p last, q.2 = Fallible.ok p →
      indexRows p.Rows (p.Total - 1) = some last →
      minInt64 < last.CreateTime ∧ last.CreateTime ≤ maxInt64 ∧
        ∀ m ∈ p.Rows, last.CreateTime ≤ m.CreateTime) :
    (queryLog r.trace).Pairwise (fun a b => ∀ pa pb, a.2 = Fallible.ok pa →
      b.2 = Fallible.ok pb →
      ∀ m ∈ pa.Rows, m ∉ pb.Rows ∧ ∀ m' ∈ pb.Rows, m'.CreateTime < m.CreateTime) ∧
    ((∀ q ∈ queryLog r.trace, ∀ p, q.2 = Fallible.ok p → p.Rows.Nodup) →
      (rowsWritten (queryLog r.trace)).Nodup ∧
      ∃ tail, tail.length ≤ 1 ∧ writeLog r.trace = exportHeader S userInfo ::
        (rowsWritten (queryLog r.trace)).map
          (fun m => formatMessageToText K S.timeFormat m provider.SelfInfo.UserName ++ "\n")
        ++ tail) := by
  have hchain : List.Chain' CursorStep (queryLog r.trace) := by
    rcases exportToTxt_cases hrun with ⟨e, _, hr⟩ | ⟨info, e, _, _, hr⟩ |
      ⟨info, events, exit, _, _, hloop, htrace, _⟩
    · rw [hr]; exact List.chain'_nil
    · rw [hr]; exact List.chain'_nil
    · rw [htrace, queryLog_run]
      · exact chain_cursorStep_exportLoop hloop
      · rfl
  have hbelow := pairwise_cursor_below (queryLog r.trace) hchain holder hlast
  have hpair : (queryLog r.trace).Pairwise (fun a b => ∀ pa pb, a.2 = Fallible.ok pa →
      b.2 = Fallible.ok pb →
      ∀ m ∈ pa.Rows, m ∉ pb.Rows ∧ ∀ m' ∈ pb.Rows, m'.CreateTime < m.CreateTime) := by
    refine List.Pairwise.imp_of_mem ?_ hbelow
    intro a b _ hb hab pa pb hpa hpb m hm
    have hlater : ∀ m' ∈ pb.Rows, m'.CreateTime < m.CreateTime := by
      intro m' hm'
      have h1 := holder b hb pb hpb m' hm'
      have h2 := hab.2 pa hpa m hm
      omega
    refine ⟨?_, hlater⟩
    intro hmem
    have := hlater m hmem
    omega
  refine ⟨hpair, ?_⟩
  intro hnd
  refine ⟨nodup_rowsWritten _ hpair hnd, ?_⟩
  obtain ⟨lines, tail, hw, hl, hcase⟩ := writeLog_exportToTxt hlookup hcreate hrun
  refine ⟨tail, ?_, by rw [hw, hl]⟩
  rcases hcase with ⟨_, ht⟩ | ⟨_, ht⟩ <;> rw [ht] <;> simp

theorem queryLog_twoPageExport :
    queryLog (runOf twoPageExport).trace =
      [(1000, Fallible.ok ⟨2, [textMessage 300 "u" "c", textMessage 200 "u" "b"]⟩),
       (199, Fallible.ok ⟨1, [textMessage 100 "u" "a"]⟩),
       (99, Fallible.ok ⟨0, []⟩)] := by
  decide

/-- C11 at an export of two non-empty pages (times 300 and 200, then 100): the row of the
second page is strictly older than both rows of the first and is none of them, and the
three rows written are pairwise distinct. -/
theorem C11_no_refetch_witness :
    (queryLog (runOf twoPageExport).trace).Pairwise (fun a b => ∀ pa pb,
      a.2 = Fallible.ok pa → b.2 = Fallible.ok pb →
      ∀ m ∈ pa.Rows, m ∉ pb.Rows ∧ ∀ m' ∈ pb.Rows, m'.CreateTime < m.CreateTime) ∧
    (rowsWritten (queryLog (runOf twoPageExport).trace)).Nodup ∧
    rowsWritten (queryLog (runOf twoPageExport).trace) =
      [textMessage 300 "u" "c", textMessage 200 "u" "b", textMessage 100 "u" "a"] := by
  have h := C11_no_refetch sampleConsts (sampleSystem 1000)
    (scriptedProvider (sampleUser "u" "N")
      [Fallible.ok ⟨2, [textMessage 300 "u" "c", textMessage 200 "u" "b"]⟩,
       Fallible.ok ⟨1, [textMessage 100 "u" "a"]⟩]) "u" "out" 5
    (runOf twoPageExport) (sampleUser "u" "N") (by decide) rfl (by decide)
    (by
      rw [queryLog_twoPageExport]
      intro q hq p hp
      simp only [List.mem_cons, List.mem_singleton, List.not_mem_nil, or_false] at hq
      rcases hq with rfl | rfl | rfl <;>
      · simp only [Fallible.ok.injEq] at hp
        subst hp
        decide)
    (by
      rw [queryLog_twoPageExport]
      intro q hq p last hp hl
      simp only [List.mem_cons, List.mem_singleton, List.not_mem_nil, or_false] at hq
      rcases hq with rfl | rfl | rfl
      · simp only [Fallible.ok.injEq] at hp
        subst hp
        rw [show indexRows (WeChatMessageList.mk 2
            [textMessage 300 "u" "c", textMessage 200 "u" "b"]).Rows
          ((WeChatMessageList.mk 2
            [textMessage 300 "u" "c", textMessage 200 "u" "b"]).Total - 1) =
          some (textMessage 200 "u" "b") from by decide] at hl
        simp only [Option.some.injEq] at hl
        subst hl
        decide
      · simp only [Fallible.ok.injEq] at hp
        subst hp
        rw [show indexRows (WeChatMessageList.mk 1 [textMessage 100 "u" "a"]).Rows
          ((WeChatMessageList.mk 1 [textMessage 100 "u" "a"]).Total - 1) =
          some (textMessage 100 "u" "a") from by decide] at hl
        simp only [Option.some.injEq] at hl
        subst hl
        decide
      · simp only [Fallible.ok.injEq] at hp
        subst hp
        rw [show indexRows (WeChatMessageList.mk 0 []).Rows
          ((WeChatMessageList.mk 0 []).Total - 1) = none from by decide] at hl
        cases hl)
  refine ⟨h.1, (h.2 ?_).1, by decide⟩
  rw [queryLog_twoPageExport]
  intro q hq p hp
  simp only [List.mem_cons, List.mem_singleton, List.not_mem_nil, or_false] at hq
  rcases hq with rfl | rfl | rfl <;>
  · simp only [Fallible.ok.injEq] at hp
    subst hp
    decide

/-! ## The three-message scenario -/

theorem storeQuery_three_first (m1 m2 m3 : WeChatMessage) (c : Int)
    (h1 : m1.CreateTime = 100) (h2 : m2.CreateTime = 200) (h3 : m3.CreateTime = 300)
    (hc : 300 < c) :
    storeQuery [m1, m2, m3] c pageSize = ⟨3, [m3, m2, m1]⟩ := by
  have hs : newestFirst [m1, m2, m3] = [m3, m2, m1] := by
    simp [newestFirst, List.insertionSort, List.orderedInsert, newerOrEqual, h1, h2, h3]
  have c1 : m1.CreateTime < c := by omega
  have c2 : m2.CreateTime < c := by omega
  have c3 : m3.CreateTime < c := by omega
  simp [storeQuery, hs, c1, c2, c3, pageSize]

theorem storeQuery_three_second (m1 m2 m3 : WeChatMessage)
    (h1 : m1.CreateTime = 100) (h2 : m2.CreateTime = 200) (h3 : m3.CreateTime = 300) :
    storeQuery [m1, m2, m3] 99 pageSize = ⟨0, []⟩ := by
  have hs : newestFirst [m1, m2, m3] = [m3, m2, m1] := by
    simp [newestFirst, List.insertionSort, List.orderedInsert, newerOrEqual, h1, h2, h3]
  simp [storeQuery, hs, h1, h2, h3, pageSize]

/-- C15. Three-message scenario: for a conversation of three messages at times 100, 200
and 300, a starting cursor later than 300, a provider that resolves the user and answers
each query with up to 500 of the newest messages older than the cursor, newest first, and
a file that can be created, `exportToTxt` (with any loop bound of at least 2 iterations)
issues exactly two queries: the first returns the page of the 3 rows, the second gets the
cursor 99 and returns the empty page; the three lines are written and the export returns
with the count 3. -/
theorem C15_three_message_scenario (K : WechatConsts) (S : System)
    (provider : WechatDataProvider) (userName outputPath : String) (fuel : Nat)
    (userInfo : WeChatUserInfo) (m1 m2 m3 : WeChatMessage)
    (h1 : m1.CreateTime = 100) (h2 : m2.CreateTime = 200) (h3 : m3.CreateTime = 300)
    (hnow : 300 < S.now 2)
    (hlookup : provider.WechatGetUserInfoByNameOnCache userName = Fallible.ok userInfo)
    (hask : ∀ n c, askPage provider userName n c =
      Fallible.ok (storeQuery [m1, m2, m3] c pageSize))
    (hcreate : S.osCreate (exportPath S userName outputPath) = none)
    (hfuel : 2 ≤ fuel) :
    ∃ r, exportToTxt K S provider userName outputPath fuel = some r ∧
      queryLog r.trace =
        [(S.now 2, Fallible.ok ⟨3, [m3, m2, m1]⟩), (99, Fallible.ok ⟨0, []⟩)] ∧
      writeLog r.trace = [exportHeader S userInfo,
        formatMessageToText K S.timeFormat m3 provider.SelfInfo.UserName ++ "\n",
        formatMessageToText K S.timeFormat m2 provider.SelfInfo.UserName ++ "\n",
        formatMessageToText K S.timeFormat m1 provider.SelfInfo.UserName ++ "\n",
        "\n==================================================\n导出完成，共导出 3 条消息\n"] ∧
      r.outcome = Outcome.returned
        ("\n✅ 导出成功！\n文件保存在: " ++ exportPath S userName outputPath ++
          "\n共导出 3 条消息") := by
  have hfooter : exportFooter 3 =
      "\n==================================================\n导出完成，共导出 3 条消息\n" := by decide
  have hstatus : exportSuccess (exportPath S userName outputPath) 3 =
      "\n✅ 导出成功！\n文件保存在: " ++ exportPath S userName outputPath ++
        "\n共导出 3 条消息" := by
    rw [exportSuccess]
    simp only [String.append_assoc]
    rw [show ("\n共导出 " ++ (toString 3 ++ " 条消息") : String) = "\n共导出 3 条消息" from by
      decide]
  obtain ⟨f, rfl⟩ : ∃ f, fuel = f + 2 := ⟨fuel - 2, by omega⟩
  have hq1 := storeQuery_three_first m1 m2 m3 (S.now 2) h1 h2 h3 hnow
  have hq2 := storeQuery_three_second m1 m2 m3 h1 h2 h3
  have hi : indexRows [m3, m2, m1] 2 = some m1 := by
    simp [indexRows]
  have hw : wrapInt64 (m1.CreateTime - 1) = 99 := by
    rw [h1]; decide
  have hloop : exportLoop K S provider userName (f + 2) 0 (S.now 2) 0 =
      some (queryEvent provider userName 0 (S.now 2) ::
          pageEvents K S provider 0 [m3, m2, m1] ++
        [queryEvent provider userName 1 99], LoopExit.finished 3) := by
    simp [exportLoop, hask, hq1, hq2, hi, hw]
  have hrun : exportToTxt K S provider userName outputPath (f + 2) =
      some ⟨[Event.lookup userName, Event.create (exportPath S userName outputPath) none,
          Event.write (exportHeader S userInfo) (S.WriteString 0 (exportHeader S userInfo)),
          Event.stdout ("正在导出 " ++ userInfo.NickName ++ " 的聊天记录...\n")] ++
        (queryEvent provider userName 0 (S.now 2) ::
          pageEvents K S provider 0 [m3, m2, m1] ++ [queryEvent provider userName 1 99]) ++
        [Event.write (exportFooter 3) (S.WriteString (3 + 1) (exportFooter 3)), Event.close],
      Outcome.returned (exportSuccess (exportPath S userName outputPath) 3)⟩ := by
    simp only [exportToTxt, hlookup, hcreate, hloop]
  refine ⟨_, hrun, ?_, ?_, by rw [← hstatus]⟩
  · simp only [queryLog_append, queryLog_queryEvent_cons, queryLog_pageEvents]
    simp [queryLog, hask, hq1, hq2]
  · rw [← hfooter]
    simp only [writeLog_append, writeLog_pageEvents]
    simp [writeLog, queryEvent]

/-- C15 at three text messages, with the clock at 1000 and the store's provider. -/
theorem C15_three_message_scenario_witness :
    ∃ r, exportToTxt sampleConsts (sampleSystem 1000)
        (storeProvider default (sampleUser "u" "N")
          [textMessage 100 "u" "a", textMessage 200 "u" "b", textMessage 300 "u" "c"])
        (sampleUser "u" "N").UserName "out" 2 = some r ∧
      queryLog r.trace =
        [((sampleSystem 1000).now 2, Fallible.ok ⟨3, [textMessage 300 "u" "c",
          textMessage 200 "u" "b", textMessage 100 "u" "a"]⟩), (99, Fallible.ok ⟨0, []⟩)] ∧
      writeLog r.trace = [exportHeader (sampleSystem 1000) (sampleUser "u" "N"),
        formatMessageToText sampleConsts (sampleSystem 1000).timeFormat
          (textMessage 300 "u" "c") (storeProvider default (sampleUser "u" "N")
          [textMessage 100 "u" "a", textMessage 200 "u" "b",
            textMessage 300 "u" "c"]).SelfInfo.UserName ++ "\n",
        formatMessageToText sampleConsts (sampleSystem 1000).timeFormat
          (textMessage 200 "u" "b") (storeProvider default (sampleUser "u" "N")
          [textMessage 100 "u" "a", textMessage 200 "u" "b",
            textMessage 300 "u" "c"]).SelfInfo.UserName ++ "\n",
        formatMessageToText sampleConsts (sampleSystem 1000).timeFormat
          (textMessage 100 "u" "a") (storeProvider default (sampleUser "u" "N")
          [textMessage 100 "u" "a", textMessage 200 "u" "b",
            textMessage 300 "u" "c"]).SelfInfo.UserName ++ "\n",
        "\n==================================================\n导出完成，共导出 3 条消息\n"] ∧
      r.outcome = Outcome.returned
        ("\n✅ 导出成功！\n文件保存在: " ++
          exportPath (sampleSystem 1000) (sampleUser "u" "N").UserName "out" ++
          "\n共导出 3 条消息") :=
  C15_three_message_scenario sampleConsts (sampleSystem 1000)
    (storeProvider default (sampleUser "u" "N")
      [textMessage 100 "u" "a", textMessage 200 "u" "b", textMessage 300 "u" "c"])
    (sampleUser "u" "N").UserName "out" 2 (sampleUser "u" "N")
    (textMessage 100 "u" "a") (textMessage 200 "u" "b") (textMessage 300 "u" "c")
    rfl rfl rfl (by decide) (by decide)
    (askPage_storeProvider default (sampleUser "u" "N")
      [textMessage 100 "u" "a", textMessage 200 "u" "b", textMessage 300 "u" "c"])
    rfl (by decide)

/-! ## A failed page query ends the export with its footer -/

theorem exportLoop_failed_after (K : WechatConsts) (S : System)
    (provider : WechatDataProvider) (userName : String) (e : String) (c' : Int) :
    ∀ (pages : List WeChatMessageList) (fuel queryNo : Nat) (currentTime : Int)
      (totalMessages : Nat),
      cursorAfter provider userName queryNo currentTime pages = some c' →
      askPage provider userName (queryNo + pages.length) c' = Fallible.err e →
      pages.length + 1 ≤ fuel →
      ∃ pre,
        exportLoop K S provider userName fuel queryNo currentTime totalMessages =
          some (pre ++
            [Event.query userName c' pageSize Message_Search_Direction.Message_Search_Forward
              (Fallible.err e), Event.log ("获取消息失败: " ++ e ++ "\n")],
            LoopExit.finished (totalMessages + (rowsOfPages pages).length)) ∧
        writeLog pre = (rowsOfPages pages).map
          (fun m => formatMessageToText K S.timeFormat m provider.SelfInfo.UserName ++ "\n") ∧
        (queryLog pre).map Prod.snd = pages.map Fallible.ok := by
  intro pages
  induction pages with
  | nil =>
    intro fuel queryNo currentTime totalMessages hc hfail hfuel
    obtain ⟨f, rfl⟩ : ∃ f, fuel = f + 1 := ⟨fuel - 1, by simp at hfuel; omega⟩
    simp only [cursorAfter, Option.some.injEq] at hc
    subst hc
    simp only [List.length_nil, Nat.add_zero] at hfail
    refine ⟨[], ?_, rfl, rfl⟩
    simp [exportLoop, hfail, queryEvent, rowsOfPages]
  | cons p ps ih =>
    intro fuel queryNo currentTime totalMessages hc hfail hfuel
    obtain ⟨f, rfl⟩ : ∃ f, fuel = f + 1 := ⟨fuel - 1, by simp at hfuel; omega⟩
    simp only [cursorAfter] at hc
    split_ifs at hc with hcond
    obtain ⟨ha, h0⟩ := hcond
    cases hi : indexRows p.Rows (p.Total - 1) with
    | none => rw [hi] at hc; simp at hc
    | some last =>
      rw [hi] at hc
      simp only at hc
      have hfail' : askPage provider userName (queryNo + 1 + ps.length) c' =
          Fallible.err e := by
        rw [← hfail]
        congr 1
        simp only [List.length_cons]
        omega
      obtain ⟨pre, hloop, hw, hq⟩ := ih f (queryNo + 1) (wrapInt64 (last.CreateTime - 1))
        (totalMessages + p.Rows.length) hc hfail' (by simp at hfuel; omega)
      refine ⟨queryEvent provider userName queryNo currentTime ::
        pageEvents K S provider totalMessages p.Rows ++ pre, ?_, ?_, ?_⟩
      · simp only [exportLoop, ha, h0, if_false, hi, hloop]
        simp [rowsOfPages, Nat.add_assoc]
      · have hqe : ∀ ev, writeLog (queryEvent provider userName queryNo currentTime :: ev) =
            writeLog ev := fun _ => rfl
        rw [writeLog_append, hqe, writeLog_pageEvents, hw]
        simp [rowsOfPages]
      · rw [queryLog_append, queryLog_queryEvent_cons, queryLog_pageEvents, ha]
        simp [hq]

/-- C7. Page-retrieval failure is non-fatal: when the provider answers the first queries
of a run with the given pages (each taking the loop to the next query) and the query
after them fails, `exportToTxt` terminates (within any loop bound above the number of
pages) once the file is created: the failed query is the last query, the trace ends with
that query, the log line, the write of the footer and the close of the file, so that no
message line follows the footer; the transcript is the header, the lines of the rows of
the pages before the failure and the footer, and the footer and the returned status
report the total number of those rows. -/
theorem C7_page_failure_non_fatal (K : WechatConsts) (S : System)
    (provider : WechatDataProvider) (userName outputPath : String) (fuel : Nat)
    (userInfo : WeChatUserInfo) (pages : List WeChatMessageList) (c : Int) (e : String)
    (hlookup : provider.WechatGetUserInfoByNameOnCache userName = Fallible.ok userInfo)
    (hcreate : S.osCreate (exportPath S userName outputPath) = none)
    (hpages : cursorAfter provider userName 0 (S.now 2) pages = some c)
    (hfail : askPage provider userName pages.length c = Fallible.err e)
    (hfuel : pages.length + 1 ≤ fuel) :
    ∃ r pre w, exportToTxt K S provider userName outputPath fuel = some r ∧
      (queryLog r.trace).map Prod.snd = pages.map Fallible.ok ++ [Fallible.err e] ∧
      r.trace = pre ++
        [Event.query userName c pageSize Message_Search_Direction.Message_Search_Forward
            (Fallible.err e),
          Event.log ("获取消息失败: " ++ e ++ "\n"),
          Event.write
            ("\n==================================================\n导出完成，共导出 " ++
              toString (rowsOfPages pages).length ++ " 条消息\n") w,
          Event.close] ∧
      writeLog r.trace = exportHeader S userInfo ::
        (rowsOfPages pages).map
          (fun m => formatMessageToText K S.timeFormat m provider.SelfInfo.UserName ++ "\n")
        ++ ["\n==================================================\n导出完成，共导出 " ++
              toString (rowsOfPages pages).length ++ " 条消息\n"] ∧
      r.outcome = Outcome.returned
        ("\n✅ 导出成功！\n文件保存在: " ++ exportPath S userName outputPath ++ "\n共导出 " ++
          toString (rowsOfPages pages).length ++ " 条消息") := by
  have hF : ∀ n : Nat, exportFooter n =
      "\n==================================================\n导出完成，共导出 " ++ toString n ++
        " 条消息\n" := by
    intro n
    have e1 : ("\n" ++ rule50 ++ "\n" : String) =
        "\n==================================================\n" := by decide
    have e2 : ("\n==================================================\n导出完成，共导出 " : String) =
        "\n==================================================\n" ++ "导出完成，共导出 " := by decide
    rw [exportFooter, e1, e2]
    simp only [String.append_assoc]
  have hS : ∀ (fullPath : String) (n : Nat), exportSuccess fullPath n =
      "\n✅ 导出成功！\n文件保存在: " ++ fullPath ++ "\n共导出 " ++ toString n ++ " 条消息" :=
    fun _ _ => rfl
  obtain ⟨pre, hloop, hw, hq⟩ := exportLoop_failed_after K S provider userName e c pages fuel
    0 (S.now 2) 0 hpages (by rw [Nat.zero_add]; exact hfail) hfuel
  rw [Nat.zero_add] at hloop
  have hrun : exportToTxt K S provider userName outputPath fuel =
      some ⟨[Event.lookup userName, Event.create (exportPath S userName outputPath) none,
          Event.write (exportHeader S userInfo) (S.WriteString 0 (exportHeader S userInfo)),
          Event.stdout ("正在导出 " ++ userInfo.NickName ++ " 的聊天记录...\n")] ++
        (pre ++
          [Event.query userName c pageSize Message_Search_Direction.Message_Search_Forward
            (Fallible.err e), Event.log ("获取消息失败: " ++ e ++ "\n")]) ++
        [Event.write (exportFooter (rowsOfPages pages).length)
          (S.WriteString ((rowsOfPages pages).length + 1)
            (exportFooter (rowsOfPages pages).length)), Event.close],
      Outcome.returned (exportSuccess (exportPath S userName outputPath)
        (rowsOfPages pages).length)⟩ := by
    simp only [exportToTxt, hlookup, hcreate, hloop]
  refine ⟨_, [Event.lookup userName, Event.create (exportPath S userName outputPath) none,
      Event.write (exportHeader S userInfo) (S.WriteString 0 (exportHeader S userInfo)),
      Event.stdout ("正在导出 " ++ userInfo.NickName ++ " 的聊天记录...\n")] ++ pre,
    S.WriteString ((rowsOfPages pages).length + 1) (exportFooter (rowsOfPages pages).length),
    hrun, ?_, ?_, ?_, ?_⟩
  · simp only [queryLog_append, List.map_append, hq]
    simp [queryLog]
  · rw [← hF]
    simp
  · rw [← hF]
    simp only [writeLog_append, hw]
    simp [writeLog]
  · rw [← hS]

set_option maxRecDepth 1000000 in
set_option maxHeartbeats 4000000 in
/-- C7 at the scenario of the claim: a first page of 500 rows, then a failing second
query; the footer and the status report 500. -/
theorem C7_page_failure_non_fatal_witness :
    ∃ r pre w, failedSecondFetch = some r ∧
      (queryLog r.trace).map Prod.snd =
        [Fallible.ok ⟨500, everySecond 500⟩, Fallible.err "database is locked"] ∧
      r.trace = pre ++
        [Event.query "u" 0 pageSize Message_Search_Direction.Message_Search_Forward
            (Fallible.err "database is locked"),
          Event.log "获取消息失败: database is locked\n",
          Event.write
            "\n==================================================\n导出完成，共导出 500 条消息\n" w,
          Event.close] ∧
      (writeLog r.trace).length = 500 + 2 ∧
      (writeLog r.trace).getLast? =
        some "\n==================================================\n导出完成，共导出 500 条消息\n" ∧
      r.outcome = Outcome.returned
        "\n✅ 导出成功！\n文件保存在: out/wechat_chat_u_1000.txt\n共导出 500 条消息" := by
  obtain ⟨r, pre, w, h1, h2, h3, h4, h5⟩ :=
    C7_page_failure_non_fatal sampleConsts (sampleSystem 1000)
      (scriptedProvider (sampleUser "u" "N")
        [Fallible.ok ⟨500, everySecond 500⟩, Fallible.err "database is locked"])
      "u" "out" 5 (sampleUser "u" "N") [⟨500, everySecond 500⟩] 0 "database is locked"
      (by decide) rfl (by decide) (by decide) (by decide)
  have hn : (rowsOfPages [(⟨500, everySecond 500⟩ : WeChatMessageList)]).length = 500 := by
    decide
  have hf : ("\n==================================================\n导出完成，共导出 " ++
      toString 500 ++ " 条消息\n" : String) =
      "\n==================================================\n导出完成，共导出 500 条消息\n" := by
    decide
  have hs : ("\n✅ 导出成功！\n文件保存在: " ++ exportPath (sampleSystem 1000) "u" "out" ++
      "\n共导出 " ++ toString 500 ++ " 条消息" : String) =
      "\n✅ 导出成功！\n文件保存在: out/wechat_chat_u_1000.txt\n共导出 500 条消息" := by decide
  have hl : ("获取消息失败: " ++ "database is locked" ++ "\n" : String) =
      "获取消息失败: database is locked\n" := by decide
  rw [hn] at h3 h4 h5
  rw [hf] at h3 h4
  rw [hs] at h5
  rw [hl] at h3
  refine ⟨r, pre, w, h1, h2, h3, ?_, ?_, h5⟩
  · rw [h4]
    simp [hn]
  · rw [h4, List.getLast?_append]
    rfl

/-! ## Completeness at a page boundary -/

set_option maxRecDepth 1000000 in
set_option maxHeartbeats 4000000 in
/-- C1, the code at a failing input. The conversation `boundaryTie` holds 501 messages,
all older than the starting cursor 1000; two of them, of different identity, lie in
second 1. The store answers each query with up to 500 of the newest messages older than
the cursor, newest first, and never fails. The first page holds the 500 newest messages,
its last row is one of the two messages of second 1, the next cursor is 0, and the second
page is empty: `exportToTxt` issues two queries, writes 500 message lines between header
and footer, and its footer and its status report 500, not 501; the message of second 1
with identity 1 is never written. -/
theorem C1_completeness_failing_input :
    boundaryTie.length = 501 ∧
    (∀ m ∈ boundaryTie, m.CreateTime < 1000) ∧
    boundaryTieExport.map (fun r => (r.outcome, (writeLog r.trace).length,
        (writeLog r.trace).getLast?, (queryLog r.trace).map Prod.fst)) =
      some (Outcome.returned
          "\n✅ 导出成功！\n文件保存在: out/wechat_chat_u_1000.txt\n共导出 500 条消息",
        500 + 2,
        some "\n==================================================\n导出完成，共导出 500 条消息\n",
        [1000, 0]) ∧
    boundaryTieExport.map (fun r => ((rowsWritten (queryLog r.trace)).length,
        decide ({ textMessage 1 "u" "x" with Identity := 1 } ∈
          rowsWritten (queryLog r.trace)))) = some (500, false) ∧
    { textMessage 1 "u" "x" with Identity := 1 } ∈ boundaryTie := by
  refine ⟨by decide, by decide, by decide, by decide, by decide⟩

end TxtExport
